import Mathlib

/-!
Formal model of the Leo compiler's AST reconstruction protocol, the trait
`ReconstructingReducer` of `compiler/ast/src/reducer/reconstructing_reducer.rs`,
together with the bottom-up traversal driver that the specification describes
in its section 4.2.

Embedding conventions, applied uniformly:
- `Box<T>` is modelled as `T` (heap indirection is invisible to structural
  equality), `Vec<T>` as `List T`, `&[T]` as `List T`, `Option<T>` as
  `Option T`.
- `IndexMap<K, V>` (an insertion-ordered map) is modelled as an association
  list `List (K × V)`, which preserves both the key set and the iteration
  order of the original map.
- `std::cell::RefCell<T>` is modelled as the one-field cell `RefCell T`
  below; `RefCell::new` builds a cell and `RefCell.replace` models writing
  through `borrow_mut`, the capability of reassigning the cell's content
  after the owning node has been constructed.
- `leo_errors::Result<T>` is modelled as `Except LeoError T`, where a
  `LeoError` carries the span of the node whose reduction failed.
- The trait receiver `&mut self` is modelled by threading an explicit state
  of an arbitrary type `σ` through every method: a method receives the
  current state and returns the (possibly updated) state next to its
  `Result`.  The default method bodies of the source never touch `self`,
  which the model renders by returning the incoming state unchanged.
- `clone()` of a value is the value itself (structural equality ignores
  allocation identity).
- Rust struct types that participate in the mutually recursive AST are
  rendered as single-constructor inductives (Lean structures cannot appear
  in mutual blocks); their field order follows the source.  The AST node
  model itself lives outside the given source file (it is external per the
  specification's section 2); its variant lists are modelled from the
  specification's section 3, while every field that the reducer's default
  methods read or rebuild is taken verbatim from the source.
-/

set_option maxHeartbeats 2000000

namespace Leo

/-- Interned identifier symbol (`leo_span::Symbol`). -/
abbrev Symbol := String

/-- Source span: an opaque provenance token locating a node in source text.
Modelled as a half-open range of source offsets; the protocol never inspects
its content, it only copies it. -/
structure Span where
  lo : Nat
  hi : Nat
deriving DecidableEq

/-- An identifier node: an interned name plus its span. -/
structure Identifier where
  name : Symbol
  span : Span
deriving DecidableEq

/-- Modelled from the spec: a single character of a string literal (the AST
node model, external to the given source, is what defines it; the reducer
only copies character sequences). -/
structure Char where
  code : Nat
deriving DecidableEq

/-- Modelled from the spec: one coordinate of a group-element tuple. -/
inductive GroupCoordinate
  | number (value : Int)
  | signHigh
  | signLow
  | inferred
deriving DecidableEq

/-- A group tuple literal: two coordinates plus a span (fields as rebuilt by
`reduce_group_tuple` in the source). -/
structure GroupTuple where
  x : GroupCoordinate
  y : GroupCoordinate
  span : Span
deriving DecidableEq

/-- Modelled from the spec: a group-element literal, either a single textual
value or a coordinate tuple. -/
inductive GroupValue
  | single (value : String) (span : Span)
  | tuple (t : GroupTuple)
deriving DecidableEq

/-- Modelled from the spec: literal value expressions.  The `string` variant
(a raw character sequence plus its span) is exactly the shape built by the
source's `reduce_string`; the remaining variants are the other leaf literals
the specification lists. -/
inductive ValueExpression
  | boolean (value : Bool) (span : Span)
  | integer (value : Int) (span : Span)
  | implicit (value : String) (span : Span)
  | group (value : GroupValue)
  | string (value : List Char) (span : Span)
deriving DecidableEq

/-- Modelled from the spec: binary operator tags, carried through reduction
uninterpreted. -/
inductive BinaryOperation
  | add | sub | mul | div | pow
  | orOp | andOp
  | eq | ne | ge | gt | le | lt
deriving DecidableEq

/-- Modelled from the spec: unary operator tags. -/
inductive UnaryOperation
  | notOp | negate
deriving DecidableEq

/-- Model of `std::cell::RefCell`: a single updatable cell. -/
structure RefCell (α : Type) where
  value : α
deriving DecidableEq

/-- Model of `RefCell::new`: a fresh cell holding `a`. -/
def RefCell.new (a : α) : RefCell α :=
  ⟨a⟩

/-- Model of writing through `borrow_mut`: replace the cell's content. -/
def RefCell.replace (_cell : RefCell α) (a : α) : RefCell α :=
  ⟨a⟩

/-- Modelled from the spec: array dimension literals (numbers, never
reduced). -/
abbrev ArrayDimensions := List Nat

/-- Modelled from the spec: a positive number literal used as a tuple index. -/
structure PositiveNumber where
  value : Nat
deriving DecidableEq

/-- Modelled from the spec: the single polymorphic `Type` entity (primitive,
array, tuple, circuit-reference/alias by identifier, the `Self` type).
Primitive scalar types are collapsed into one tagged variant, since the
protocol never distinguishes them.  Named `AstType` because `Type` is
reserved in Lean. -/
inductive AstType
  | primitive (tag : Nat)
  | identifier (id : Identifier)
  | array (element : AstType) (dimensions : ArrayDimensions)
  | tuple (elements : List AstType)
  | selfType

/-- Modelled from the spec: the declaration-type tag of a definition
statement (`let` or `const`), copied through reduction. -/
inductive Declare
  | letDecl
  | constDecl
deriving DecidableEq

/-- Modelled from the spec: the operation tag of an assignment statement,
copied through reduction. -/
inductive AssignOperation
  | assign | addAssign | subAssign | mulAssign | divAssign | powAssign
deriving DecidableEq

/-- A variable name inside a definition statement (fields as rebuilt by
`reduce_variable_name` in the source). -/
structure VariableName where
  mutable : Bool
  identifier : Identifier
  span : Span
deriving DecidableEq

/-- A named function input variable (fields as rebuilt by
`reduce_function_input_variable` in the source). -/
structure FunctionInputVariable where
  identifier : Identifier
  const_ : Bool
  mutable : Bool
  type_ : AstType
  span : Span

/-- Modelled from the spec: a function input, either one of the keyword
inputs or a named input variable. -/
inductive FunctionInput
  | inputKeyword (span : Span)
  | selfKeyword (span : Span)
  | constSelfKeyword (span : Span)
  | mutSelfKeyword (span : Span)
  | variableInput (v : FunctionInputVariable)

/-- Modelled from the spec: the tree shape of one parsed package path inside
an import statement; opaque at this layer (the protocol's summary hook
passes it through). -/
structure ImportTree where
  base : List Symbol
  span : Span
deriving DecidableEq

/-- An import statement (fields as rebuilt by `reduce_import_statement` in
the source). -/
structure ImportStatement where
  tree : ImportTree
  span : Span
deriving DecidableEq

/-- Modelled from the spec: a type alias declaration (an identifier bound to
a type); the trait exposes no dedicated hook for it. -/
structure Alias where
  name : Identifier
  represents : AstType
  span : Span

/-- An annotation on a function (fields as rebuilt by the source's default
rule: span and arguments copied, name reduced). -/
structure Annotation where
  span : Span
  name : Identifier
  arguments : List Symbol
deriving DecidableEq

/-- Model of `indexmap::IndexMap`: an insertion-ordered association list. -/
abbrev IndexMap (κ ν : Type) := List (κ × ν)

/-- The error type of reduction: a reduction failure always carries the span
of the node whose reduction failed. -/
structure LeoError where
  span : Span
deriving DecidableEq

/-- Model of `leo_errors::Result`. -/
abbrev Result (α : Type) := Except LeoError α

/-- Model of `Function.core_mapping`: backend-specific metadata held in a
shared mutable cell, never rewritten by the protocol. -/
abbrev CoreMapping := RefCell (Option Symbol)

mutual

/-- Modelled from the spec: the expression node kinds, one variant per kind
listed in the specification's data model. -/
inductive Expression
  | identifier (id : Identifier)
  | value (v : ValueExpression)
  | binary (e : BinaryExpression)
  | unary (e : UnaryExpression)
  | ternary (e : TernaryExpression)
  | cast (e : CastExpression)
  | arrayAccess (e : ArrayAccess)
  | arrayRangeAccess (e : ArrayRangeAccess)
  | memberAccess (e : MemberAccess)
  | tupleAccess (e : TupleAccess)
  | staticAccess (e : StaticAccess)
  | arrayInline (e : ArrayInlineExpression)
  | arrayInit (e : ArrayInitExpression)
  | tupleInit (e : TupleInitExpression)
  | circuitInit (e : CircuitInitExpression)
  | call (e : CallExpression)

/-- A binary expression: left and right operands, operator, span. -/
inductive BinaryExpression
  | mk (left : Expression) (right : Expression) (op : BinaryOperation) (span : Span)

/-- A unary expression: inner operand, operator, span. -/
inductive UnaryExpression
  | mk (inner : Expression) (op : UnaryOperation) (span : Span)

/-- A ternary conditional expression. -/
inductive TernaryExpression
  | mk (condition : Expression) (if_true : Expression) (if_false : Expression) (span : Span)

/-- A cast expression: inner operand and target type. -/
inductive CastExpression
  | mk (inner : Expression) (target_type : AstType) (span : Span)

/-- An array element access. -/
inductive ArrayAccess
  | mk (array : Expression) (index : Expression) (span : Span)

/-- An array range access with optional lower and upper bounds. -/
inductive ArrayRangeAccess
  | mk (array : Expression) (left : Option Expression) (right : Option Expression) (span : Span)

/-- A member access, with an optionally resolved type. -/
inductive MemberAccess
  | mk (inner : Expression) (name : Identifier) (span : Span) (type_ : Option AstType)

/-- A tuple element access by positional index. -/
inductive TupleAccess
  | mk (tuple : Expression) (index : PositiveNumber) (span : Span)

/-- A static member access; its resolved type lives in a shared mutable
cell so that a later pass can fill it in after the node's construction. -/
inductive StaticAccess
  | mk (inner : Expression) (name : Identifier) (type_ : RefCell AstType) (span : Span)

/-- An inline array literal of spread-or-expression elements. -/
inductive ArrayInlineExpression
  | mk (elements : List SpreadOrExpression) (span : Span)

/-- An array initializer: one element expression plus dimensions. -/
inductive ArrayInitExpression
  | mk (element : Expression) (dimensions : ArrayDimensions) (span : Span)

/-- A tuple literal. -/
inductive TupleInitExpression
  | mk (elements : List Expression) (span : Span)

/-- One member initializer inside a circuit literal (no span of its own). -/
inductive CircuitVariableInitializer
  | mk (identifier : Identifier) (expression : Option Expression)

/-- A circuit literal: circuit name plus member initializers. -/
inductive CircuitInitExpression
  | mk (name : Identifier) (members : List CircuitVariableInitializer) (span : Span)

/-- A call expression: callee plus arguments. -/
inductive CallExpression
  | mk (function : Expression) (arguments : List Expression) (span : Span)

/-- Modelled from the spec: an inline-array element, either a spread or a
plain expression. -/
inductive SpreadOrExpression
  | spread (e : Expression)
  | expression (e : Expression)

/-- Modelled from the spec: the statement node kinds. -/
inductive Statement
  | ret (s : ReturnStatement)
  | definition (s : DefinitionStatement)
  | assign (s : AssignStatement)
  | conditional (s : ConditionalStatement)
  | iteration (s : IterationStatement)
  | console (s : ConsoleStatement)
  | expression (s : ExpressionStatement)
  | block (s : Block)

/-- A return statement. -/
inductive ReturnStatement
  | mk (expression : Expression) (span : Span)

/-- A definition statement: declaration tag, variable names, parenthesization
flag, annotated type, initializing value, span. -/
inductive DefinitionStatement
  | mk (declaration_type : Declare) (variable_names : List VariableName)
       (parened : Bool) (type_ : AstType) (value : Expression) (span : Span)

/-- Modelled from the spec: one access step on the left-hand side of an
assignment (range, index, tuple slot, or member). -/
inductive AssigneeAccess
  | arrayRange (left : Option Expression) (right : Option Expression)
  | arrayIndex (index : Expression)
  | tuple (index : PositiveNumber) (span : Span)
  | member (name : Identifier)

/-- An assignment target: base identifier plus access path. -/
inductive Assignee
  | mk (identifier : Identifier) (accesses : List AssigneeAccess) (span : Span)

/-- An assignment statement: operation tag, target, value, span. -/
inductive AssignStatement
  | mk (operation : AssignOperation) (assignee : Assignee) (value : Expression) (span : Span)

/-- A conditional statement: condition, then-block, optional else-branch. -/
inductive ConditionalStatement
  | mk (condition : Expression) (block : Block) (next : Option Statement) (span : Span)

/-- An iteration statement: loop variable, its type, bounds, inclusivity
flag, body, span. -/
inductive IterationStatement
  | mk (variable_ : Identifier) (type_ : AstType) (start : Expression)
       (stop : Expression) (inclusive : Bool) (block : Block) (span : Span)

/-- Modelled from the spec: the arguments of a console call (format string
plus parameters). -/
inductive ConsoleArgs
  | mk (string : List Char) (parameters : List Expression) (span : Span)

/-- Modelled from the spec: the payload of a console statement. -/
inductive ConsoleFunction
  | assert (e : Expression)
  | error (args : ConsoleArgs)
  | log (args : ConsoleArgs)

/-- A console statement. -/
inductive ConsoleStatement
  | mk (function : ConsoleFunction) (span : Span)

/-- An expression statement. -/
inductive ExpressionStatement
  | mk (expression : Expression) (span : Span)

/-- A block: an ordered sequence of statements plus a span. -/
inductive Block
  | mk (statements : List Statement) (span : Span)

/-- Modelled from the spec: one member of a circuit declaration (a typed
variable or a member function). -/
inductive CircuitMember
  | circuitVariable (name : Identifier) (type_ : AstType)
  | circuitFunction (f : Function)

/-- A circuit declaration: name plus members (no span of its own, matching
the fields rebuilt by `reduce_circuit` in the source). -/
inductive Circuit
  | mk (circuit_name : Identifier) (members : List CircuitMember)

/-- A function declaration (fields as rebuilt by `reduce_function` in the
source, including the non-reducible `core_mapping` metadata). -/
inductive Function
  | mk (identifier : Identifier) (annotations : List (Symbol × Annotation))
       (input : List FunctionInput) (const_ : Bool) (output : AstType)
       (block : Block) (core_mapping : CoreMapping) (span : Span)

/-- The top-level program (fields as rebuilt by `reduce_program` in the
source): name, expected inputs, import statements, and the four
insertion-ordered mappings. -/
inductive Program
  | mk (name : String) (expected_input : List FunctionInput)
       (import_statements : List ImportStatement)
       (imports : List (List Symbol × Program))
       (aliases : List (Identifier × Alias))
       (circuits : List (Identifier × Circuit))
       (functions : List (Identifier × Function))
       (global_consts : List (List Identifier × DefinitionStatement))

end

/-! Field accessors for the single-constructor inductives of the mutual
family (Lean generates them automatically only for `structure`s). -/

def BinaryExpression.span : BinaryExpression → Span
  | .mk _ _ _ sp => sp

def UnaryExpression.span : UnaryExpression → Span
  | .mk _ _ sp => sp

def TernaryExpression.span : TernaryExpression → Span
  | .mk _ _ _ sp => sp

def CastExpression.span : CastExpression → Span
  | .mk _ _ sp => sp

def ArrayAccess.span : ArrayAccess → Span
  | .mk _ _ sp => sp

def ArrayRangeAccess.array : ArrayRangeAccess → Expression
  | .mk a _ _ _ => a

def ArrayRangeAccess.left : ArrayRangeAccess → Option Expression
  | .mk _ l _ _ => l

def ArrayRangeAccess.right : ArrayRangeAccess → Option Expression
  | .mk _ _ r _ => r

def ArrayRangeAccess.span : ArrayRangeAccess → Span
  | .mk _ _ _ sp => sp

def MemberAccess.span : MemberAccess → Span
  | .mk _ _ sp _ => sp

def TupleAccess.index : TupleAccess → PositiveNumber
  | .mk _ i _ => i

def TupleAccess.span : TupleAccess → Span
  | .mk _ _ sp => sp

def StaticAccess.inner : StaticAccess → Expression
  | .mk i _ _ _ => i

def StaticAccess.name : StaticAccess → Identifier
  | .mk _ n _ _ => n

def StaticAccess.type_ : StaticAccess → RefCell AstType
  | .mk _ _ t _ => t

def StaticAccess.span : StaticAccess → Span
  | .mk _ _ _ sp => sp

/-- Model of the write `*node.type_.borrow_mut() = t` that a later pass may
perform on a static-access node after its construction: only the shared
mutable type cell changes, every other field stays. -/
def StaticAccess.writeType : StaticAccess → AstType → StaticAccess
  | .mk i n c sp, t => .mk i n (c.replace t) sp

def ArrayInlineExpression.span : ArrayInlineExpression → Span
  | .mk _ sp => sp

def ArrayInitExpression.dimensions : ArrayInitExpression → ArrayDimensions
  | .mk _ d _ => d

def ArrayInitExpression.span : ArrayInitExpression → Span
  | .mk _ _ sp => sp

def TupleInitExpression.span : TupleInitExpression → Span
  | .mk _ sp => sp

def CircuitInitExpression.span : CircuitInitExpression → Span
  | .mk _ _ sp => sp

def CallExpression.span : CallExpression → Span
  | .mk _ _ sp => sp

def ReturnStatement.span : ReturnStatement → Span
  | .mk _ sp => sp

def DefinitionStatement.declaration_type : DefinitionStatement → Declare
  | .mk d _ _ _ _ _ => d

def DefinitionStatement.parened : DefinitionStatement → Bool
  | .mk _ _ p _ _ _ => p

def DefinitionStatement.type_ : DefinitionStatement → AstType
  | .mk _ _ _ t _ _ => t

def DefinitionStatement.span : DefinitionStatement → Span
  | .mk _ _ _ _ _ sp => sp

def Assignee.span : Assignee → Span
  | .mk _ _ sp => sp

def AssignStatement.operation : AssignStatement → AssignOperation
  | .mk o _ _ _ => o

def AssignStatement.span : AssignStatement → Span
  | .mk _ _ _ sp => sp

def ConditionalStatement.condition : ConditionalStatement → Expression
  | .mk c _ _ _ => c

def ConditionalStatement.block : ConditionalStatement → Block
  | .mk _ b _ _ => b

def ConditionalStatement.next : ConditionalStatement → Option Statement
  | .mk _ _ n _ => n

def ConditionalStatement.span : ConditionalStatement → Span
  | .mk _ _ _ sp => sp

def IterationStatement.inclusive : IterationStatement → Bool
  | .mk _ _ _ _ i _ _ => i

def IterationStatement.span : IterationStatement → Span
  | .mk _ _ _ _ _ _ sp => sp

def ConsoleStatement.span : ConsoleStatement → Span
  | .mk _ sp => sp

def ExpressionStatement.span : ExpressionStatement → Span
  | .mk _ sp => sp

def Block.span : Block → Span
  | .mk _ sp => sp

def Function.core_mapping : Function → CoreMapping
  | .mk _ _ _ _ _ _ cm _ => cm

def Function.span : Function → Span
  | .mk _ _ _ _ _ _ _ sp => sp

def Program.name : Program → String
  | .mk n _ _ _ _ _ _ _ => n

def Program.imports : Program → IndexMap (List Symbol) Program
  | .mk _ _ _ im _ _ _ _ => im

def Program.aliases : Program → IndexMap Identifier Alias
  | .mk _ _ _ _ al _ _ _ => al

def Program.circuits : Program → IndexMap Identifier Circuit
  | .mk _ _ _ _ _ ci _ _ => ci

def Program.functions : Program → IndexMap Identifier Function
  | .mk _ _ _ _ _ _ fs _ => fs

def Program.global_consts : Program → IndexMap (List Identifier) DefinitionStatement
  | .mk _ _ _ _ _ _ _ gc => gc

/-! The default methods of the `ReconstructingReducer` trait.  Each is a
direct translation of the corresponding default body in the source file;
the trait receiver `&mut self` becomes an explicit state `st : σ` (the
implementor's type is opaque to the defaults, hence the polymorphism), and
every default returns the state unchanged because the source bodies never
touch `self`. -/

namespace ReconstructingReducer

/-- Default of `reduce_type` (summary hook): pass the rebuilt type through. -/
def reduce_type {σ : Type} (st : σ) (_type_ : AstType) (new : AstType) (_span : Span) :
    σ × Result AstType :=
  (st, Except.ok new)

/-- Default of `reduce_expression` (summary hook): pass the rebuilt
expression through. -/
def reduce_expression {σ : Type} (st : σ) (_expression : Expression) (new : Expression) :
    σ × Result Expression :=
  (st, Except.ok new)

/-- Default of `reduce_identifier`: rebuild from the original's fields. -/
def reduce_identifier {σ : Type} (st : σ) (identifier : Identifier) :
    σ × Result Identifier :=
  (st, Except.ok ⟨identifier.name, identifier.span⟩)

/-- Default of `reduce_group_tuple`: rebuild from the original's fields. -/
def reduce_group_tuple {σ : Type} (st : σ) (group_tuple : GroupTuple) :
    σ × Result GroupTuple :=
  (st, Except.ok ⟨group_tuple.x, group_tuple.y, group_tuple.span⟩)

/-- Default of `reduce_group_value` (summary hook): pass through. -/
def reduce_group_value {σ : Type} (st : σ) (_group_value : GroupValue) (new : GroupValue) :
    σ × Result GroupValue :=
  (st, Except.ok new)

/-- Default of `reduce_string`: fold the character sequence and span into a
`Value`-kind expression. -/
def reduce_string {σ : Type} (st : σ) (string : List Char) (span : Span) :
    σ × Result Expression :=
  (st, Except.ok (Expression.value (ValueExpression.string string span)))

/-- Default of `reduce_value` (summary hook): pass through. -/
def reduce_value {σ : Type} (st : σ) (_value : ValueExpression) (new : Expression) :
    σ × Result Expression :=
  (st, Except.ok new)

/-- Default of `reduce_binary`: reassemble from the reduced operands, the
carried operator, and the original's span. -/
def reduce_binary {σ : Type} (st : σ) (binary : BinaryExpression)
    (left : Expression) (right : Expression) (op : BinaryOperation) :
    σ × Result BinaryExpression :=
  (st, Except.ok (BinaryExpression.mk left right op binary.span))

/-- Default of `reduce_unary`. -/
def reduce_unary {σ : Type} (st : σ) (unary : UnaryExpression)
    (inner : Expression) (op : UnaryOperation) :
    σ × Result UnaryExpression :=
  (st, Except.ok (UnaryExpression.mk inner op unary.span))

/-- Default of `reduce_ternary`. -/
def reduce_ternary {σ : Type} (st : σ) (ternary : TernaryExpression)
    (condition : Expression) (if_true : Expression) (if_false : Expression) :
    σ × Result TernaryExpression :=
  (st, Except.ok (TernaryExpression.mk condition if_true if_false ternary.span))

/-- Default of `reduce_cast`. -/
def reduce_cast {σ : Type} (st : σ) (cast : CastExpression)
    (inner : Expression) (target_type : AstType) :
    σ × Result CastExpression :=
  (st, Except.ok (CastExpression.mk inner target_type cast.span))

/-- Default of `reduce_array_access`. -/
def reduce_array_access {σ : Type} (st : σ) (array_access : ArrayAccess)
    (array : Expression) (index : Expression) :
    σ × Result ArrayAccess :=
  (st, Except.ok (ArrayAccess.mk array index array_access.span))

/-- Default of `reduce_array_range_access`: the optional bounds are stored
exactly as supplied (the source maps `Box::new` over them, which the model
renders as the identity).  The parameter name `array_rage_access` keeps the
source's spelling. -/
def reduce_array_range_access {σ : Type} (st : σ) (array_rage_access : ArrayRangeAccess)
    (array : Expression) (left : Option Expression) (right : Option Expression) :
    σ × Result ArrayRangeAccess :=
  (st, Except.ok (ArrayRangeAccess.mk array left right array_rage_access.span))

/-- Default of `reduce_member_access`. -/
def reduce_member_access {σ : Type} (st : σ) (member_access : MemberAccess)
    (inner : Expression) (name : Identifier) (type_ : Option AstType) :
    σ × Result MemberAccess :=
  (st, Except.ok (MemberAccess.mk inner name member_access.span type_))

/-- Default of `reduce_tuple_access`. -/
def reduce_tuple_access {σ : Type} (st : σ) (tuple_access : TupleAccess)
    (tuple : Expression) :
    σ × Result TupleAccess :=
  (st, Except.ok (TupleAccess.mk tuple tuple_access.index tuple_access.span))

/-- Default of `reduce_static_access`: the supplied type is stored in a
fresh shared mutable cell (`RefCell::new(type_)` in the source). -/
def reduce_static_access {σ : Type} (st : σ) (static_access : StaticAccess)
    (value : Expression) (type_ : AstType) (name : Identifier) :
    σ × Result StaticAccess :=
  (st, Except.ok (StaticAccess.mk value name (RefCell.new type_) static_access.span))

/-- Default of `reduce_array_inline`. -/
def reduce_array_inline {σ : Type} (st : σ) (array_inline : ArrayInlineExpression)
    (elements : List SpreadOrExpression) :
    σ × Result ArrayInlineExpression :=
  (st, Except.ok (ArrayInlineExpression.mk elements array_inline.span))

/-- Default of `reduce_array_init`: dimensions are copied from the original. -/
def reduce_array_init {σ : Type} (st : σ) (array_init : ArrayInitExpression)
    (element : Expression) :
    σ × Result ArrayInitExpression :=
  (st, Except.ok (ArrayInitExpression.mk element array_init.dimensions array_init.span))

/-- Default of `reduce_tuple_init`. -/
def reduce_tuple_init {σ : Type} (st : σ) (tuple_init : TupleInitExpression)
    (elements : List Expression) :
    σ × Result TupleInitExpression :=
  (st, Except.ok (TupleInitExpression.mk elements tuple_init.span))

/-- Default of `reduce_circuit_variable_initializer`. -/
def reduce_circuit_variable_initializer {σ : Type} (st : σ)
    (_variable : CircuitVariableInitializer)
    (identifier : Identifier) (expression : Option Expression) :
    σ × Result CircuitVariableInitializer :=
  (st, Except.ok (CircuitVariableInitializer.mk identifier expression))

/-- Default of `reduce_circuit_init`. -/
def reduce_circuit_init {σ : Type} (st : σ) (circuit_init : CircuitInitExpression)
    (name : Identifier) (members : List CircuitVariableInitializer) :
    σ × Result CircuitInitExpression :=
  (st, Except.ok (CircuitInitExpression.mk name members circuit_init.span))

/-- Default of `reduce_call`. -/
def reduce_call {σ : Type} (st : σ) (call : CallExpression)
    (function : Expression) (arguments : List Expression) :
    σ × Result CallExpression :=
  (st, Except.ok (CallExpression.mk function arguments call.span))

/-- Default of `reduce_statement` (summary hook): pass through. -/
def reduce_statement {σ : Type} (st : σ) (_statement : Statement) (new : Statement) :
    σ × Result Statement :=
  (st, Except.ok new)

/-- Default of `reduce_return`. -/
def reduce_return {σ : Type} (st : σ) (return_statement : ReturnStatement)
    (expression : Expression) :
    σ × Result ReturnStatement :=
  (st, Except.ok (ReturnStatement.mk expression return_statement.span))

/-- Default of `reduce_variable_name`: mutability flag and span copied. -/
def reduce_variable_name {σ : Type} (st : σ) (variable_name : VariableName)
    (identifier : Identifier) :
    σ × Result VariableName :=
  (st, Except.ok ⟨variable_name.mutable, identifier, variable_name.span⟩)

/-- Default of `reduce_definition`: declaration tag, parenthesization flag
and span copied from the original. -/
def reduce_definition {σ : Type} (st : σ) (definition : DefinitionStatement)
    (variable_names : List VariableName) (type_ : AstType) (value : Expression) :
    σ × Result DefinitionStatement :=
  (st, Except.ok (DefinitionStatement.mk definition.declaration_type variable_names
    definition.parened type_ value definition.span))

/-- Default of `reduce_assignee_access` (summary hook): pass through. -/
def reduce_assignee_access {σ : Type} (st : σ) (_access : AssigneeAccess)
    (new : AssigneeAccess) :
    σ × Result AssigneeAccess :=
  (st, Except.ok new)

/-- Default of `reduce_assignee`. -/
def reduce_assignee {σ : Type} (st : σ) (assignee : Assignee)
    (identifier : Identifier) (accesses : List AssigneeAccess) :
    σ × Result Assignee :=
  (st, Except.ok (Assignee.mk identifier accesses assignee.span))

/-- Default of `reduce_assign`: operation tag and span copied. -/
def reduce_assign {σ : Type} (st : σ) (assign : AssignStatement)
    (assignee : Assignee) (value : Expression) :
    σ × Result AssignStatement :=
  (st, Except.ok (AssignStatement.mk assign.operation assignee value assign.span))

/-- Default of `reduce_conditional`: the optional else-branch is stored
exactly as supplied. -/
def reduce_conditional {σ : Type} (st : σ) (conditional : ConditionalStatement)
    (condition : Expression) (block : Block) (statement : Option Statement) :
    σ × Result ConditionalStatement :=
  (st, Except.ok (ConditionalStatement.mk condition block statement conditional.span))

/-- Default of `reduce_iteration`: inclusivity flag and span copied. -/
def reduce_iteration {σ : Type} (st : σ) (iteration : IterationStatement)
    (variable_ : Identifier) (type_ : AstType) (start : Expression)
    (stop : Expression) (block : Block) :
    σ × Result IterationStatement :=
  (st, Except.ok (IterationStatement.mk variable_ type_ start stop
    iteration.inclusive block iteration.span))

/-- Default of `reduce_console`. -/
def reduce_console {σ : Type} (st : σ) (console : ConsoleStatement)
    (function : ConsoleFunction) :
    σ × Result ConsoleStatement :=
  (st, Except.ok (ConsoleStatement.mk function console.span))

/-- Default of `reduce_expression_statement`. -/
def reduce_expression_statement {σ : Type} (st : σ)
    (expression_statement : ExpressionStatement) (expression : Expression) :
    σ × Result ExpressionStatement :=
  (st, Except.ok (ExpressionStatement.mk expression expression_statement.span))

/-- Default of `reduce_block`. -/
def reduce_block {σ : Type} (st : σ) (block : Block) (statements : List Statement) :
    σ × Result Block :=
  (st, Except.ok (Block.mk statements block.span))

/-- Default of `reduce_program`: the name is copied from the original and
every other field is exactly the supplied reduced argument. -/
def reduce_program {σ : Type} (st : σ) (program : Program)
    (expected_input : List FunctionInput) (import_statements : List ImportStatement)
    (imports : IndexMap (List Symbol) Program) (aliases : IndexMap Identifier Alias)
    (circuits : IndexMap Identifier Circuit) (functions : IndexMap Identifier Function)
    (global_consts : IndexMap (List Identifier) DefinitionStatement) :
    σ × Result Program :=
  (st, Except.ok (Program.mk program.name expected_input import_statements
    imports aliases circuits functions global_consts))

/-- Default of `reduce_function_input_variable`: constness, mutability and
span copied. -/
def reduce_function_input_variable {σ : Type} (st : σ) (variable_ : FunctionInputVariable)
    (identifier : Identifier) (type_ : AstType) :
    σ × Result FunctionInputVariable :=
  (st, Except.ok ⟨identifier, variable_.const_, variable_.mutable, type_, variable_.span⟩)

/-- Default of `reduce_function_input` (summary hook): pass through. -/
def reduce_function_input {σ : Type} (st : σ) (_input : FunctionInput) (new : FunctionInput) :
    σ × Result FunctionInput :=
  (st, Except.ok new)

/-- Default of `reduce_import_tree` (summary hook): pass through. -/
def reduce_import_tree {σ : Type} (st : σ) (_tree : ImportTree) (new : ImportTree) :
    σ × Result ImportTree :=
  (st, Except.ok new)

/-- Default of `reduce_import_statement`: span copied. -/
def reduce_import_statement {σ : Type} (st : σ) (imp : ImportStatement) (tree : ImportTree) :
    σ × Result ImportStatement :=
  (st, Except.ok ⟨tree, imp.span⟩)

/-- Default of `reduce_import`: the key and the reduced imported program are
returned as supplied. -/
def reduce_import {σ : Type} (st : σ) (identifier : List Symbol) (imported : Program) :
    σ × Result (List Symbol × Program) :=
  (st, Except.ok (identifier, imported))

/-- Default of `reduce_circuit_member` (summary hook): pass through. -/
def reduce_circuit_member {σ : Type} (st : σ) (_circuit_member : CircuitMember)
    (new : CircuitMember) :
    σ × Result CircuitMember :=
  (st, Except.ok new)

/-- Default of `reduce_circuit`. -/
def reduce_circuit {σ : Type} (st : σ) (_circuit : Circuit)
    (circuit_name : Identifier) (members : List CircuitMember) :
    σ × Result Circuit :=
  (st, Except.ok (Circuit.mk circuit_name members))

/-- Default of `reduce_annotation`: span and arguments copied, name reduced. -/
def reduce_annotation {σ : Type} (st : σ) (ann : Annotation) (name : Identifier) :
    σ × Result Annotation :=
  (st, Except.ok ⟨ann.span, name, ann.arguments⟩)

/-- Default of `reduce_function`: `core_mapping` and span copied from the
original, every reduced field reassembled verbatim. -/
def reduce_function {σ : Type} (st : σ) (function : Function)
    (identifier : Identifier) (annotations : IndexMap Symbol Annotation)
    (input : List FunctionInput) (const_ : Bool) (output : AstType) (block : Block) :
    σ × Result Function :=
  (st, Except.ok (Function.mk identifier annotations input const_ output block
    function.core_mapping function.span))

end ReconstructingReducer

/-- A protocol implementation: one function per trait method, over a
pass-chosen state type `σ` (the model of the implementing type behind
`&mut self`).  The two context-mode operations `in_circuit` and
`swap_in_circuit` have no default and must be supplied by the implementor;
every `reduce_*` field of `defaultReducer` below is the corresponding
default method. -/
structure Reducer (σ : Type) where
  in_circuit : σ → Bool
  swap_in_circuit : σ → σ
  reduce_type : σ → AstType → AstType → Span → σ × Result AstType
  reduce_expression : σ → Expression → Expression → σ × Result Expression
  reduce_identifier : σ → Identifier → σ × Result Identifier
  reduce_group_tuple : σ → GroupTuple → σ × Result GroupTuple
  reduce_group_value : σ → GroupValue → GroupValue → σ × Result GroupValue
  reduce_string : σ → List Char → Span → σ × Result Expression
  reduce_value : σ → ValueExpression → Expression → σ × Result Expression
  reduce_binary : σ → BinaryExpression → Expression → Expression → BinaryOperation → σ × Result BinaryExpression
  reduce_unary : σ → UnaryExpression → Expression → UnaryOperation → σ × Result UnaryExpression
  reduce_ternary : σ → TernaryExpression → Expression → Expression → Expression → σ × Result TernaryExpression
  reduce_cast : σ → CastExpression → Expression → AstType → σ × Result CastExpression
  reduce_array_access : σ → ArrayAccess → Expression → Expression → σ × Result ArrayAccess
  reduce_array_range_access : σ → ArrayRangeAccess → Expression → Option Expression → Option Expression → σ × Result ArrayRangeAccess
  reduce_member_access : σ → MemberAccess → Expression → Identifier → Option AstType → σ × Result MemberAccess
  reduce_tuple_access : σ → TupleAccess → Expression → σ × Result TupleAccess
  reduce_static_access : σ → StaticAccess → Expression → AstType → Identifier → σ × Result StaticAccess
  reduce_array_inline : σ → ArrayInlineExpression → List SpreadOrExpression → σ × Result ArrayInlineExpression
  reduce_array_init : σ → ArrayInitExpression → Expression → σ × Result ArrayInitExpression
  reduce_tuple_init : σ → TupleInitExpression → List Expression → σ × Result TupleInitExpression
  reduce_circuit_variable_initializer : σ → CircuitVariableInitializer → Identifier → Option Expression → σ × Result CircuitVariableInitializer
  reduce_circuit_init : σ → CircuitInitExpression → Identifier → List CircuitVariableInitializer → σ × Result CircuitInitExpression
  reduce_call : σ → CallExpression → Expression → List Expression → σ × Result CallExpression
  reduce_statement : σ → Statement → Statement → σ × Result Statement
  reduce_return : σ → ReturnStatement → Expression → σ × Result ReturnStatement
  reduce_variable_name : σ → VariableName → Identifier → σ × Result VariableName
  reduce_definition : σ → DefinitionStatement → List VariableName → AstType → Expression → σ × Result DefinitionStatement
  reduce_assignee_access : σ → AssigneeAccess → AssigneeAccess → σ × Result AssigneeAccess
  reduce_assignee : σ → Assignee → Identifier → List AssigneeAccess → σ × Result Assignee
  reduce_assign : σ → AssignStatement → Assignee → Expression → σ × Result AssignStatement
  reduce_conditional : σ → ConditionalStatement → Expression → Block → Option Statement → σ × Result ConditionalStatement
  reduce_iteration : σ → IterationStatement → Identifier → AstType → Expression → Expression → Block → σ × Result IterationStatement
  reduce_console : σ → ConsoleStatement → ConsoleFunction → σ × Result ConsoleStatement
  reduce_expression_statement : σ → ExpressionStatement → Expression → σ × Result ExpressionStatement
  reduce_block : σ → Block → List Statement → σ × Result Block
  reduce_program : σ → Program → List FunctionInput → List ImportStatement → IndexMap (List Symbol) Program → IndexMap Identifier Alias → IndexMap Identifier Circuit → IndexMap Identifier Function → IndexMap (List Identifier) DefinitionStatement → σ × Result Program
  reduce_function_input_variable : σ → FunctionInputVariable → Identifier → AstType → σ × Result FunctionInputVariable
  reduce_function_input : σ → FunctionInput → FunctionInput → σ × Result FunctionInput
  reduce_import_tree : σ → ImportTree → ImportTree → σ × Result ImportTree
  reduce_import_statement : σ → ImportStatement → ImportTree → σ × Result ImportStatement
  reduce_import : σ → List Symbol → Program → σ × Result (List Symbol × Program)
  reduce_circuit_member : σ → CircuitMember → CircuitMember → σ × Result CircuitMember
  reduce_circuit : σ → Circuit → Identifier → List CircuitMember → σ × Result Circuit
  reduce_annotation : σ → Annotation → Identifier → σ × Result Annotation
  reduce_function : σ → Function → Identifier → IndexMap Symbol Annotation → List FunctionInput → Bool → AstType → Block → σ × Result Function

/-- The protocol implementation that overrides nothing: every hook is the
trait's default method; only the two required context-mode operations are
taken as arguments. -/
def mkDefault (σ : Type) (inc : σ → Bool) (swap : σ → σ) : Reducer σ where
  in_circuit := inc
  swap_in_circuit := swap
  reduce_type := ReconstructingReducer.reduce_type
  reduce_expression := ReconstructingReducer.reduce_expression
  reduce_identifier := ReconstructingReducer.reduce_identifier
  reduce_group_tuple := ReconstructingReducer.reduce_group_tuple
  reduce_group_value := ReconstructingReducer.reduce_group_value
  reduce_string := ReconstructingReducer.reduce_string
  reduce_value := ReconstructingReducer.reduce_value
  reduce_binary := ReconstructingReducer.reduce_binary
  reduce_unary := ReconstructingReducer.reduce_unary
  reduce_ternary := ReconstructingReducer.reduce_ternary
  reduce_cast := ReconstructingReducer.reduce_cast
  reduce_array_access := ReconstructingReducer.reduce_array_access
  reduce_array_range_access := ReconstructingReducer.reduce_array_range_access
  reduce_member_access := ReconstructingReducer.reduce_member_access
  reduce_tuple_access := ReconstructingReducer.reduce_tuple_access
  reduce_static_access := ReconstructingReducer.reduce_static_access
  reduce_array_inline := ReconstructingReducer.reduce_array_inline
  reduce_array_init := ReconstructingReducer.reduce_array_init
  reduce_tuple_init := ReconstructingReducer.reduce_tuple_init
  reduce_circuit_variable_initializer := ReconstructingReducer.reduce_circuit_variable_initializer
  reduce_circuit_init := ReconstructingReducer.reduce_circuit_init
  reduce_call := ReconstructingReducer.reduce_call
  reduce_statement := ReconstructingReducer.reduce_statement
  reduce_return := ReconstructingReducer.reduce_return
  reduce_variable_name := ReconstructingReducer.reduce_variable_name
  reduce_definition := ReconstructingReducer.reduce_definition
  reduce_assignee_access := ReconstructingReducer.reduce_assignee_access
  reduce_assignee := ReconstructingReducer.reduce_assignee
  reduce_assign := ReconstructingReducer.reduce_assign
  reduce_conditional := ReconstructingReducer.reduce_conditional
  reduce_iteration := ReconstructingReducer.reduce_iteration
  reduce_console := ReconstructingReducer.reduce_console
  reduce_expression_statement := ReconstructingReducer.reduce_expression_statement
  reduce_block := ReconstructingReducer.reduce_block
  reduce_program := ReconstructingReducer.reduce_program
  reduce_function_input_variable := ReconstructingReducer.reduce_function_input_variable
  reduce_function_input := ReconstructingReducer.reduce_function_input
  reduce_import_tree := ReconstructingReducer.reduce_import_tree
  reduce_import_statement := ReconstructingReducer.reduce_import_statement
  reduce_import := ReconstructingReducer.reduce_import
  reduce_circuit_member := ReconstructingReducer.reduce_circuit_member
  reduce_circuit := ReconstructingReducer.reduce_circuit
  reduce_annotation := ReconstructingReducer.reduce_annotation
  reduce_function := ReconstructingReducer.reduce_function

/-- The per-traversal state of an implementation that adds nothing of its
own: just the single in-circuit context-mode bit. -/
structure ReducerState where
  in_circuit : Bool
deriving DecidableEq

/-- The all-default protocol implementation over the minimal state: its
`swap_in_circuit` flips the bit, and every reduction hook is the default. -/
def defaultReducer : Reducer ReducerState :=
  mkDefault ReducerState ReducerState.in_circuit (fun st => ReducerState.mk (!st.in_circuit))

/-! Modelled from the spec: the traversal driver (the specification's
section 4.2).  Its concrete code is not part of the given source file (only
the protocol trait is), so the driver below is built from the
specification's words: a post-order, children-before-parent walk that
reduces every child field in left-to-right declaration order,
short-circuits on the first failure, then invokes the matching `reduce_*`
hook of the supplied protocol implementation on the original node and the
reduced children, and finally runs the matching summary hook where one
exists.  Recursion is by explicit fuel (a `Nat` that every recursive call
decrements) so that every driver function is a total, executable Lean
function; running out of fuel yields the error below, which a run with
fuel larger than the tree's size never reaches. -/

/-- Error produced only when the driver's fuel runs out (never reached when
the fuel exceeds the size of the tree being reduced). -/
def fuelExhausted : LeoError :=
  ⟨⟨0, 0⟩⟩

/-- State-threading sequencing of two reduction steps, the model of Rust's
`?` operator on `Result` with the receiver threaded through: a failure
short-circuits, skipping the continuation entirely. -/
def rbind {σ α β : Type} : σ × Result α → (σ → α → σ × Result β) → σ × Result β
  | (st, Except.error e), _ => (st, Except.error e)
  | (st, Except.ok a), k => k st a

namespace Director

/-- Driver for a group value: reduce the tuple (if any) with
`reduce_group_tuple`, then run the `reduce_group_value` summary hook. -/
def reduceGroupValue {σ : Type} (R : Reducer σ) (st : σ) (gv : GroupValue) :
    σ × Result GroupValue :=
  match gv with
  | GroupValue.tuple gt =>
    rbind (R.reduce_group_tuple st gt) fun st gt' =>
      R.reduce_group_value st (GroupValue.tuple gt) (GroupValue.tuple gt')
  | other => R.reduce_group_value st other other

/-- Driver for a literal value: strings go through `reduce_string`, group
values through the group driver, the other leaf literals are carried over;
the `reduce_value` summary hook runs last. -/
def reduceValue {σ : Type} (R : Reducer σ) (st : σ) (v : ValueExpression) :
    σ × Result Expression :=
  let built : σ × Result Expression :=
    match v with
    | ValueExpression.group gv =>
      rbind (Director.reduceGroupValue R st gv) fun st gv' =>
        (st, Except.ok (Expression.value (ValueExpression.group gv')))
    | ValueExpression.string s sp => R.reduce_string st s sp
    | other => (st, Except.ok (Expression.value other))
  rbind built fun st new => R.reduce_value st v new

/-- Driver for a variable name: reduce the identifier, then invoke
`reduce_variable_name`. -/
def reduceVariableName {σ : Type} (R : Reducer σ) (st : σ) (vn : VariableName) :
    σ × Result VariableName :=
  rbind (R.reduce_identifier st vn.identifier) fun st id' =>
    R.reduce_variable_name st vn id'

/-- Driver for a list of variable names, left to right, short-circuiting. -/
def reduceVariableNameList {σ : Type} (R : Reducer σ) :
    σ → List VariableName → σ × Result (List VariableName)
  | st, [] => (st, Except.ok [])
  | st, vn :: rest =>
    rbind (Director.reduceVariableName R st vn) fun st vn' =>
      rbind (Director.reduceVariableNameList R st rest) fun st rest' =>
        (st, Except.ok (vn' :: rest'))

/-- Driver for one annotations-map entry: reduce the name identifier, then
invoke `reduce_annotation`; the interned key is carried over. -/
def reduceAnnotationEntry {σ : Type} (R : Reducer σ) (st : σ) (ann : Annotation) :
    σ × Result Annotation :=
  rbind (R.reduce_identifier st ann.name) fun st n' =>
    R.reduce_annotation st ann n'

/-- Driver for the annotations map of a function, in iteration order. -/
def reduceAnnotationMap {σ : Type} (R : Reducer σ) :
    σ → IndexMap Symbol Annotation → σ × Result (IndexMap Symbol Annotation)
  | st, [] => (st, Except.ok [])
  | st, (key, ann) :: rest =>
    rbind (Director.reduceAnnotationEntry R st ann) fun st ann' =>
      rbind (Director.reduceAnnotationMap R st rest) fun st rest' =>
        (st, Except.ok ((key, ann') :: rest'))

/-- Driver for an import statement: the tree goes through the
`reduce_import_tree` summary hook, then `reduce_import_statement` runs. -/
def reduceImportStatement {σ : Type} (R : Reducer σ) (st : σ) (is : ImportStatement) :
    σ × Result ImportStatement :=
  rbind (R.reduce_import_tree st is.tree is.tree) fun st tree' =>
    R.reduce_import_statement st is tree'

/-- Driver for the import-statement list, left to right, short-circuiting. -/
def reduceImportStatementList {σ : Type} (R : Reducer σ) :
    σ → List ImportStatement → σ × Result (List ImportStatement)
  | st, [] => (st, Except.ok [])
  | st, is :: rest =>
    rbind (Director.reduceImportStatement R st is) fun st is' =>
      rbind (Director.reduceImportStatementList R st rest) fun st rest' =>
        (st, Except.ok (is' :: rest'))

end Director

namespace Director

mutual

/-- Driver for a type: reduce the nested types and the reference
identifier, rebuild, then run the `reduce_type` summary hook with the span
of the enclosing node. -/
def reduceType {σ : Type} (R : Reducer σ) : Nat → σ → AstType → Span → σ × Result AstType
  | 0, st, _, _ => (st, Except.error fuelExhausted)
  | fuel+1, st, t, sp =>
    let built : σ × Result AstType :=
      match t with
      | AstType.array el dims =>
        rbind (Director.reduceType R fuel st el sp) fun st el' =>
          (st, Except.ok (AstType.array el' dims))
      | AstType.tuple els =>
        rbind (Director.reduceTypeList R fuel st els sp) fun st els' =>
          (st, Except.ok (AstType.tuple els'))
      | AstType.identifier id =>
        rbind (R.reduce_identifier st id) fun st id' =>
          (st, Except.ok (AstType.identifier id'))
      | other => (st, Except.ok other)
    rbind built fun st new => R.reduce_type st t new sp

/-- Driver for a tuple-type component list, left to right. -/
def reduceTypeList {σ : Type} (R : Reducer σ) : Nat → σ → List AstType → Span → σ × Result (List AstType)
  | 0, st, _, _ => (st, Except.error fuelExhausted)
  | _+1, st, [], _ => (st, Except.ok [])
  | fuel+1, st, t :: rest, sp =>
    rbind (Director.reduceType R fuel st t sp) fun st t' =>
      rbind (Director.reduceTypeList R fuel st rest sp) fun st rest' =>
        (st, Except.ok (t' :: rest'))

/-- Driver for an optional type: absence is preserved. -/
def reduceTypeOpt {σ : Type} (R : Reducer σ) : Nat → σ → Option AstType → Span → σ × Result (Option AstType)
  | 0, st, _, _ => (st, Except.error fuelExhausted)
  | _+1, st, none, _ => (st, Except.ok none)
  | fuel+1, st, some t, sp =>
    rbind (Director.reduceType R fuel st t sp) fun st t' =>
      (st, Except.ok (some t'))

/-- Driver for an expression: post-order — every child is reduced first, in
declaration order, short-circuiting on the first failure; only then is the
matching specific hook invoked on the original node and the reduced
children, and the `reduce_expression` summary hook runs last. -/
def reduceExpression {σ : Type} (R : Reducer σ) : Nat → σ → Expression → σ × Result Expression
  | 0, st, _ => (st, Except.error fuelExhausted)
  | fuel+1, st, e =>
    let built : σ × Result Expression :=
      match e with
      | Expression.identifier id =>
        rbind (R.reduce_identifier st id) fun st id' =>
          (st, Except.ok (Expression.identifier id'))
      | Expression.value v => Director.reduceValue R st v
      | Expression.binary (BinaryExpression.mk l r op sp) =>
        rbind (Director.reduceExpression R fuel st l) fun st l' =>
          rbind (Director.reduceExpression R fuel st r) fun st r' =>
            rbind (R.reduce_binary st (BinaryExpression.mk l r op sp) l' r' op) fun st b' =>
              (st, Except.ok (Expression.binary b'))
      | Expression.unary (UnaryExpression.mk inner op sp) =>
        rbind (Director.reduceExpression R fuel st inner) fun st inner' =>
          rbind (R.reduce_unary st (UnaryExpression.mk inner op sp) inner' op) fun st u' =>
            (st, Except.ok (Expression.unary u'))
      | Expression.ternary (TernaryExpression.mk c tb fb sp) =>
        rbind (Director.reduceExpression R fuel st c) fun st c' =>
          rbind (Director.reduceExpression R fuel st tb) fun st tb' =>
            rbind (Director.reduceExpression R fuel st fb) fun st fb' =>
              rbind (R.reduce_ternary st (TernaryExpression.mk c tb fb sp) c' tb' fb') fun st t' =>
                (st, Except.ok (Expression.ternary t'))
      | Expression.cast (CastExpression.mk inner tt sp) =>
        rbind (Director.reduceExpression R fuel st inner) fun st inner' =>
          rbind (Director.reduceType R fuel st tt sp) fun st tt' =>
            rbind (R.reduce_cast st (CastExpression.mk inner tt sp) inner' tt') fun st c' =>
              (st, Except.ok (Expression.cast c'))
      | Expression.arrayAccess (ArrayAccess.mk arr idx sp) =>
        rbind (Director.reduceExpression R fuel st arr) fun st arr' =>
          rbind (Director.reduceExpression R fuel st idx) fun st idx' =>
            rbind (R.reduce_array_access st (ArrayAccess.mk arr idx sp) arr' idx') fun st a' =>
              (st, Except.ok (Expression.arrayAccess a'))
      | Expression.arrayRangeAccess (ArrayRangeAccess.mk arr l r sp) =>
        rbind (Director.reduceExpression R fuel st arr) fun st arr' =>
          rbind (Director.reduceExpressionOpt R fuel st l) fun st l' =>
            rbind (Director.reduceExpressionOpt R fuel st r) fun st r' =>
              rbind (R.reduce_array_range_access st (ArrayRangeAccess.mk arr l r sp) arr' l' r') fun st a' =>
                (st, Except.ok (Expression.arrayRangeAccess a'))
      | Expression.memberAccess (MemberAccess.mk inner n sp ty) =>
        rbind (Director.reduceExpression R fuel st inner) fun st inner' =>
          rbind (R.reduce_identifier st n) fun st n' =>
            rbind (Director.reduceTypeOpt R fuel st ty sp) fun st ty' =>
              rbind (R.reduce_member_access st (MemberAccess.mk inner n sp ty) inner' n' ty') fun st m' =>
                (st, Except.ok (Expression.memberAccess m'))
      | Expression.tupleAccess (TupleAccess.mk tup idx sp) =>
        rbind (Director.reduceExpression R fuel st tup) fun st tup' =>
          rbind (R.reduce_tuple_access st (TupleAccess.mk tup idx sp) tup') fun st t' =>
            (st, Except.ok (Expression.tupleAccess t'))
      | Expression.staticAccess (StaticAccess.mk inner n tyCell sp) =>
        rbind (Director.reduceExpression R fuel st inner) fun st inner' =>
          rbind (Director.reduceType R fuel st tyCell.value sp) fun st ty' =>
            rbind (R.reduce_identifier st n) fun st n' =>
              rbind (R.reduce_static_access st (StaticAccess.mk inner n tyCell sp) inner' ty' n') fun st s' =>
                (st, Except.ok (Expression.staticAccess s'))
      | Expression.arrayInline (ArrayInlineExpression.mk els sp) =>
        rbind (Director.reduceSpreadOrExpressionList R fuel st els) fun st els' =>
          rbind (R.reduce_array_inline st (ArrayInlineExpression.mk els sp) els') fun st a' =>
            (st, Except.ok (Expression.arrayInline a'))
      | Expression.arrayInit (ArrayInitExpression.mk el dims sp) =>
        rbind (Director.reduceExpression R fuel st el) fun st el' =>
          rbind (R.reduce_array_init st (ArrayInitExpression.mk el dims sp) el') fun st a' =>
            (st, Except.ok (Expression.arrayInit a'))
      | Expression.tupleInit (TupleInitExpression.mk els sp) =>
        rbind (Director.reduceExpressionList R fuel st els) fun st els' =>
          rbind (R.reduce_tuple_init st (TupleInitExpression.mk els sp) els') fun st t' =>
            (st, Except.ok (Expression.tupleInit t'))
      | Expression.circuitInit (CircuitInitExpression.mk n members sp) =>
        rbind (R.reduce_identifier st n) fun st n' =>
          rbind (Director.reduceCviList R fuel st members) fun st members' =>
            rbind (R.reduce_circuit_init st (CircuitInitExpression.mk n members sp) n' members') fun st c' =>
              (st, Except.ok (Expression.circuitInit c'))
      | Expression.call (CallExpression.mk f args sp) =>
        rbind (Director.reduceExpression R fuel st f) fun st f' =>
          rbind (Director.reduceExpressionList R fuel st args) fun st args' =>
            rbind (R.reduce_call st (CallExpression.mk f args sp) f' args') fun st c' =>
              (st, Except.ok (Expression.call c'))
    rbind built fun st new => R.reduce_expression st e new

/-- Driver for an optional expression: absence is preserved. -/
def reduceExpressionOpt {σ : Type} (R : Reducer σ) : Nat → σ → Option Expression → σ × Result (Option Expression)
  | 0, st, _ => (st, Except.error fuelExhausted)
  | _+1, st, none => (st, Except.ok none)
  | fuel+1, st, some e =>
    rbind (Director.reduceExpression R fuel st e) fun st e' =>
      (st, Except.ok (some e'))

/-- Driver for an expression list, left to right, short-circuiting. -/
def reduceExpressionList {σ : Type} (R : Reducer σ) : Nat → σ → List Expression → σ × Result (List Expression)
  | 0, st, _ => (st, Except.error fuelExhausted)
  | _+1, st, [] => (st, Except.ok [])
  | fuel+1, st, e :: rest =>
    rbind (Director.reduceExpression R fuel st e) fun st e' =>
      rbind (Director.reduceExpressionList R fuel st rest) fun st rest' =>
        (st, Except.ok (e' :: rest'))

/-- Driver for a spread-or-expression element. -/
def reduceSpreadOrExpression {σ : Type} (R : Reducer σ) : Nat → σ → SpreadOrExpression → σ × Result SpreadOrExpression
  | 0, st, _ => (st, Except.error fuelExhausted)
  | fuel+1, st, SpreadOrExpression.spread e =>
    rbind (Director.reduceExpression R fuel st e) fun st e' =>
      (st, Except.ok (SpreadOrExpression.spread e'))
  | fuel+1, st, SpreadOrExpression.expression e =>
    rbind (Director.reduceExpression R fuel st e) fun st e' =>
      (st, Except.ok (SpreadOrExpression.expression e'))

/-- Driver for a spread-or-expression list, left to right. -/
def reduceSpreadOrExpressionList {σ : Type} (R : Reducer σ) : Nat → σ → List SpreadOrExpression → σ × Result (List SpreadOrExpression)
  | 0, st, _ => (st, Except.error fuelExhausted)
  | _+1, st, [] => (st, Except.ok [])
  | fuel+1, st, e :: rest =>
    rbind (Director.reduceSpreadOrExpression R fuel st e) fun st e' =>
      rbind (Director.reduceSpreadOrExpressionList R fuel st rest) fun st rest' =>
        (st, Except.ok (e' :: rest'))

/-- Driver for one circuit-literal member initializer. -/
def reduceCvi {σ : Type} (R : Reducer σ) : Nat → σ → CircuitVariableInitializer → σ × Result CircuitVariableInitializer
  | 0, st, _ => (st, Except.error fuelExhausted)
  | fuel+1, st, CircuitVariableInitializer.mk id ex =>
    rbind (R.reduce_identifier st id) fun st id' =>
      rbind (Director.reduceExpressionOpt R fuel st ex) fun st ex' =>
        R.reduce_circuit_variable_initializer st (CircuitVariableInitializer.mk id ex) id' ex'

/-- Driver for the member-initializer list of a circuit literal. -/
def reduceCviList {σ : Type} (R : Reducer σ) : Nat → σ → List CircuitVariableInitializer → σ × Result (List CircuitVariableInitializer)
  | 0, st, _ => (st, Except.error fuelExhausted)
  | _+1, st, [] => (st, Except.ok [])
  | fuel+1, st, c :: rest =>
    rbind (Director.reduceCvi R fuel st c) fun st c' =>
      rbind (Director.reduceCviList R fuel st rest) fun st rest' =>
        (st, Except.ok (c' :: rest'))

/-- Driver for one assignee access step; the `reduce_assignee_access`
summary hook runs after the rebuilt step. -/
def reduceAssigneeAccess {σ : Type} (R : Reducer σ) : Nat → σ → AssigneeAccess → σ × Result AssigneeAccess
  | 0, st, _ => (st, Except.error fuelExhausted)
  | fuel+1, st, acc =>
    let built : σ × Result AssigneeAccess :=
      match acc with
      | AssigneeAccess.arrayRange l r =>
        rbind (Director.reduceExpressionOpt R fuel st l) fun st l' =>
          rbind (Director.reduceExpressionOpt R fuel st r) fun st r' =>
            (st, Except.ok (AssigneeAccess.arrayRange l' r'))
      | AssigneeAccess.arrayIndex i =>
        rbind (Director.reduceExpression R fuel st i) fun st i' =>
          (st, Except.ok (AssigneeAccess.arrayIndex i'))
      | AssigneeAccess.member n =>
        rbind (R.reduce_identifier st n) fun st n' =>
          (st, Except.ok (AssigneeAccess.member n'))
      | other => (st, Except.ok other)
    rbind built fun st new => R.reduce_assignee_access st acc new

/-- Driver for the access path of an assignee, left to right. -/
def reduceAssigneeAccessList {σ : Type} (R : Reducer σ) : Nat → σ → List AssigneeAccess → σ × Result (List AssigneeAccess)
  | 0, st, _ => (st, Except.error fuelExhausted)
  | _+1, st, [] => (st, Except.ok [])
  | fuel+1, st, a :: rest =>
    rbind (Director.reduceAssigneeAccess R fuel st a) fun st a' =>
      rbind (Director.reduceAssigneeAccessList R fuel st rest) fun st rest' =>
        (st, Except.ok (a' :: rest'))

/-- Driver for an assignee: identifier, then access path, then the
`reduce_assignee` hook. -/
def reduceAssignee {σ : Type} (R : Reducer σ) : Nat → σ → Assignee → σ × Result Assignee
  | 0, st, _ => (st, Except.error fuelExhausted)
  | fuel+1, st, Assignee.mk id accs sp =>
    rbind (R.reduce_identifier st id) fun st id' =>
      rbind (Director.reduceAssigneeAccessList R fuel st accs) fun st accs' =>
        R.reduce_assignee st (Assignee.mk id accs sp) id' accs'

/-- Driver for a definition statement: variable names, annotated type, then
value, then the `reduce_definition` hook. -/
def reduceDefinition {σ : Type} (R : Reducer σ) : Nat → σ → DefinitionStatement → σ × Result DefinitionStatement
  | 0, st, _ => (st, Except.error fuelExhausted)
  | fuel+1, st, DefinitionStatement.mk dt vns par ty val sp =>
    rbind (Director.reduceVariableNameList R st vns) fun st vns' =>
      rbind (Director.reduceType R fuel st ty sp) fun st ty' =>
        rbind (Director.reduceExpression R fuel st val) fun st val' =>
          R.reduce_definition st (DefinitionStatement.mk dt vns par ty val sp) vns' ty' val'

/-- Driver for a statement: children in declaration order, the specific
hook, then the `reduce_statement` summary hook. -/
def reduceStatement {σ : Type} (R : Reducer σ) : Nat → σ → Statement → σ × Result Statement
  | 0, st, _ => (st, Except.error fuelExhausted)
  | fuel+1, st, s =>
    let built : σ × Result Statement :=
      match s with
      | Statement.ret (ReturnStatement.mk e sp) =>
        rbind (Director.reduceExpression R fuel st e) fun st e' =>
          rbind (R.reduce_return st (ReturnStatement.mk e sp) e') fun st r' =>
            (st, Except.ok (Statement.ret r'))
      | Statement.definition d =>
        rbind (Director.reduceDefinition R fuel st d) fun st d' =>
          (st, Except.ok (Statement.definition d'))
      | Statement.assign (AssignStatement.mk op a v sp) =>
        rbind (Director.reduceAssignee R fuel st a) fun st a' =>
          rbind (Director.reduceExpression R fuel st v) fun st v' =>
            rbind (R.reduce_assign st (AssignStatement.mk op a v sp) a' v') fun st w' =>
              (st, Except.ok (Statement.assign w'))
      | Statement.conditional (ConditionalStatement.mk cond blk nxt sp) =>
        rbind (Director.reduceExpression R fuel st cond) fun st cond' =>
          rbind (Director.reduceBlock R fuel st blk) fun st blk' =>
            rbind (Director.reduceStatementOpt R fuel st nxt) fun st nxt' =>
              rbind (R.reduce_conditional st (ConditionalStatement.mk cond blk nxt sp) cond' blk' nxt') fun st c' =>
                (st, Except.ok (Statement.conditional c'))
      | Statement.iteration (IterationStatement.mk v ty a b incl blk sp) =>
        rbind (R.reduce_identifier st v) fun st v' =>
          rbind (Director.reduceType R fuel st ty sp) fun st ty' =>
            rbind (Director.reduceExpression R fuel st a) fun st a' =>
              rbind (Director.reduceExpression R fuel st b) fun st b' =>
                rbind (Director.reduceBlock R fuel st blk) fun st blk' =>
                  rbind (R.reduce_iteration st (IterationStatement.mk v ty a b incl blk sp) v' ty' a' b' blk') fun st it' =>
                    (st, Except.ok (Statement.iteration it'))
      | Statement.console (ConsoleStatement.mk f sp) =>
        rbind (Director.reduceConsoleFunction R fuel st f) fun st f' =>
          rbind (R.reduce_console st (ConsoleStatement.mk f sp) f') fun st c' =>
            (st, Except.ok (Statement.console c'))
      | Statement.expression (ExpressionStatement.mk e sp) =>
        rbind (Director.reduceExpression R fuel st e) fun st e' =>
          rbind (R.reduce_expression_statement st (ExpressionStatement.mk e sp) e') fun st es' =>
            (st, Except.ok (Statement.expression es'))
      | Statement.block b =>
        rbind (Director.reduceBlock R fuel st b) fun st b' =>
          (st, Except.ok (Statement.block b'))
    rbind built fun st new => R.reduce_statement st s new

/-- Driver for an optional statement (an else-branch): absence preserved. -/
def reduceStatementOpt {σ : Type} (R : Reducer σ) : Nat → σ → Option Statement → σ × Result (Option Statement)
  | 0, st, _ => (st, Except.error fuelExhausted)
  | _+1, st, none => (st, Except.ok none)
  | fuel+1, st, some s =>
    rbind (Director.reduceStatement R fuel st s) fun st s' =>
      (st, Except.ok (some s'))

/-- Driver for a statement list, left to right, short-circuiting. -/
def reduceStatementList {σ : Type} (R : Reducer σ) : Nat → σ → List Statement → σ × Result (List Statement)
  | 0, st, _ => (st, Except.error fuelExhausted)
  | _+1, st, [] => (st, Except.ok [])
  | fuel+1, st, s :: rest =>
    rbind (Director.reduceStatement R fuel st s) fun st s' =>
      rbind (Director.reduceStatementList R fuel st rest) fun st rest' =>
        (st, Except.ok (s' :: rest'))

/-- Driver for a block: its statements, then the `reduce_block` hook. -/
def reduceBlock {σ : Type} (R : Reducer σ) : Nat → σ → Block → σ × Result Block
  | 0, st, _ => (st, Except.error fuelExhausted)
  | fuel+1, st, Block.mk stmts sp =>
    rbind (Director.reduceStatementList R fuel st stmts) fun st stmts' =>
      R.reduce_block st (Block.mk stmts sp) stmts'

/-- Driver for the payload of a console statement. -/
def reduceConsoleFunction {σ : Type} (R : Reducer σ) : Nat → σ → ConsoleFunction → σ × Result ConsoleFunction
  | 0, st, _ => (st, Except.error fuelExhausted)
  | fuel+1, st, ConsoleFunction.assert e =>
    rbind (Director.reduceExpression R fuel st e) fun st e' =>
      (st, Except.ok (ConsoleFunction.assert e'))
  | fuel+1, st, ConsoleFunction.error (ConsoleArgs.mk cs params sp) =>
    rbind (Director.reduceExpressionList R fuel st params) fun st params' =>
      (st, Except.ok (ConsoleFunction.error (ConsoleArgs.mk cs params' sp)))
  | fuel+1, st, ConsoleFunction.log (ConsoleArgs.mk cs params sp) =>
    rbind (Director.reduceExpressionList R fuel st params) fun st params' =>
      (st, Except.ok (ConsoleFunction.log (ConsoleArgs.mk cs params' sp)))

/-- Driver for a named function input variable. -/
def reduceFunctionInputVariable {σ : Type} (R : Reducer σ) : Nat → σ → FunctionInputVariable → σ × Result FunctionInputVariable
  | 0, st, _ => (st, Except.error fuelExhausted)
  | fuel+1, st, v =>
    rbind (R.reduce_identifier st v.identifier) fun st id' =>
      rbind (Director.reduceType R fuel st v.type_ v.span) fun st ty' =>
        R.reduce_function_input_variable st v id' ty'

/-- Driver for a function input; keyword inputs are carried over and the
`reduce_function_input` summary hook runs last. -/
def reduceFunctionInput {σ : Type} (R : Reducer σ) : Nat → σ → FunctionInput → σ × Result FunctionInput
  | 0, st, _ => (st, Except.error fuelExhausted)
  | fuel+1, st, fi =>
    let built : σ × Result FunctionInput :=
      match fi with
      | FunctionInput.variableInput v =>
        rbind (Director.reduceFunctionInputVariable R fuel st v) fun st v' =>
          (st, Except.ok (FunctionInput.variableInput v'))
      | other => (st, Except.ok other)
    rbind built fun st new => R.reduce_function_input st fi new

/-- Driver for a function-input list, left to right. -/
def reduceFunctionInputList {σ : Type} (R : Reducer σ) : Nat → σ → List FunctionInput → σ × Result (List FunctionInput)
  | 0, st, _ => (st, Except.error fuelExhausted)
  | _+1, st, [] => (st, Except.ok [])
  | fuel+1, st, f :: rest =>
    rbind (Director.reduceFunctionInput R fuel st f) fun st f' =>
      rbind (Director.reduceFunctionInputList R fuel st rest) fun st rest' =>
        (st, Except.ok (f' :: rest'))

/-- Driver for a function declaration: identifier, annotations, inputs,
output type, body, then the `reduce_function` hook (constness is carried). -/
def reduceFunction {σ : Type} (R : Reducer σ) : Nat → σ → Function → σ × Result Function
  | 0, st, _ => (st, Except.error fuelExhausted)
  | fuel+1, st, Function.mk id anns inp c out blk cm sp =>
    rbind (R.reduce_identifier st id) fun st id' =>
      rbind (Director.reduceAnnotationMap R st anns) fun st anns' =>
        rbind (Director.reduceFunctionInputList R fuel st inp) fun st inp' =>
          rbind (Director.reduceType R fuel st out sp) fun st out' =>
            rbind (Director.reduceBlock R fuel st blk) fun st blk' =>
              R.reduce_function st (Function.mk id anns inp c out blk cm sp) id' anns' inp' c out' blk'

/-- Driver for one circuit member; the `reduce_circuit_member` summary hook
runs after the rebuilt member. -/
def reduceCircuitMember {σ : Type} (R : Reducer σ) : Nat → σ → CircuitMember → σ × Result CircuitMember
  | 0, st, _ => (st, Except.error fuelExhausted)
  | fuel+1, st, cm =>
    let built : σ × Result CircuitMember :=
      match cm with
      | CircuitMember.circuitVariable n ty =>
        rbind (R.reduce_identifier st n) fun st n' =>
          rbind (Director.reduceType R fuel st ty n.span) fun st ty' =>
            (st, Except.ok (CircuitMember.circuitVariable n' ty'))
      | CircuitMember.circuitFunction f =>
        rbind (Director.reduceFunction R fuel st f) fun st f' =>
          (st, Except.ok (CircuitMember.circuitFunction f'))
    rbind built fun st new => R.reduce_circuit_member st cm new

/-- Driver for a circuit's member list, left to right. -/
def reduceCircuitMemberList {σ : Type} (R : Reducer σ) : Nat → σ → List CircuitMember → σ × Result (List CircuitMember)
  | 0, st, _ => (st, Except.error fuelExhausted)
  | _+1, st, [] => (st, Except.ok [])
  | fuel+1, st, m :: rest =>
    rbind (Director.reduceCircuitMember R fuel st m) fun st m' =>
      rbind (Director.reduceCircuitMemberList R fuel st rest) fun st rest' =>
        (st, Except.ok (m' :: rest'))

/-- Driver for a circuit declaration. -/
def reduceCircuit {σ : Type} (R : Reducer σ) : Nat → σ → Circuit → σ × Result Circuit
  | 0, st, _ => (st, Except.error fuelExhausted)
  | fuel+1, st, Circuit.mk n ms =>
    rbind (R.reduce_identifier st n) fun st n' =>
      rbind (Director.reduceCircuitMemberList R fuel st ms) fun st ms' =>
        R.reduce_circuit st (Circuit.mk n ms) n' ms'

/-- Driver for a type alias: the trait exposes no dedicated hook, so the
driver reduces the name and the represented type and reassembles, keeping
the span. -/
def reduceAlias {σ : Type} (R : Reducer σ) : Nat → σ → Alias → σ × Result Alias
  | 0, st, _ => (st, Except.error fuelExhausted)
  | fuel+1, st, al =>
    rbind (R.reduce_identifier st al.name) fun st n' =>
      rbind (Director.reduceType R fuel st al.represents al.span) fun st ty' =>
        (st, Except.ok (Alias.mk n' ty' al.span))

/-- Driver for the aliases map, in iteration order, keys carried over. -/
def reduceAliasMap {σ : Type} (R : Reducer σ) : Nat → σ → IndexMap Identifier Alias → σ × Result (IndexMap Identifier Alias)
  | 0, st, _ => (st, Except.error fuelExhausted)
  | _+1, st, [] => (st, Except.ok [])
  | fuel+1, st, (key, al) :: rest =>
    rbind (Director.reduceAlias R fuel st al) fun st al' =>
      rbind (Director.reduceAliasMap R fuel st rest) fun st rest' =>
        (st, Except.ok ((key, al') :: rest'))

/-- Driver for the circuits map, in iteration order, keys carried over. -/
def reduceCircuitMap {σ : Type} (R : Reducer σ) : Nat → σ → IndexMap Identifier Circuit → σ × Result (IndexMap Identifier Circuit)
  | 0, st, _ => (st, Except.error fuelExhausted)
  | _+1, st, [] => (st, Except.ok [])
  | fuel+1, st, (key, c) :: rest =>
    rbind (Director.reduceCircuit R fuel st c) fun st c' =>
      rbind (Director.reduceCircuitMap R fuel st rest) fun st rest' =>
        (st, Except.ok ((key, c') :: rest'))

/-- Driver for the functions map, in iteration order, keys carried over. -/
def reduceFunctionMap {σ : Type} (R : Reducer σ) : Nat → σ → IndexMap Identifier Function → σ × Result (IndexMap Identifier Function)
  | 0, st, _ => (st, Except.error fuelExhausted)
  | _+1, st, [] => (st, Except.ok [])
  | fuel+1, st, (key, f) :: rest =>
    rbind (Director.reduceFunction R fuel st f) fun st f' =>
      rbind (Director.reduceFunctionMap R fuel st rest) fun st rest' =>
        (st, Except.ok ((key, f') :: rest'))

/-- Driver for the global-constants map, in iteration order, keys carried
over. -/
def reduceGlobalConstMap {σ : Type} (R : Reducer σ) : Nat → σ → IndexMap (List Identifier) DefinitionStatement → σ × Result (IndexMap (List Identifier) DefinitionStatement)
  | 0, st, _ => (st, Except.error fuelExhausted)
  | _+1, st, [] => (st, Except.ok [])
  | fuel+1, st, (key, d) :: rest =>
    rbind (Director.reduceDefinition R fuel st d) fun st d' =>
      rbind (Director.reduceGlobalConstMap R fuel st rest) fun st rest' =>
        (st, Except.ok ((key, d') :: rest'))

/-- Driver for the imports map: each imported program is reduced
recursively, then `reduce_import` runs on the path and the reduced program. -/
def reduceImportsMap {σ : Type} (R : Reducer σ) : Nat → σ → IndexMap (List Symbol) Program → σ × Result (IndexMap (List Symbol) Program)
  | 0, st, _ => (st, Except.error fuelExhausted)
  | _+1, st, [] => (st, Except.ok [])
  | fuel+1, st, (path, prog) :: rest =>
    rbind (Director.reduceProgram R fuel st prog) fun st prog' =>
      rbind (R.reduce_import st path prog') fun st pair =>
        rbind (Director.reduceImportsMap R fuel st rest) fun st rest' =>
          (st, Except.ok (pair :: rest'))

/-- Driver for the whole program, the traversal's entry point: every field
is reduced in declaration order, then the `reduce_program` hook reassembles. -/
def reduceProgram {σ : Type} (R : Reducer σ) : Nat → σ → Program → σ × Result Program
  | 0, st, _ => (st, Except.error fuelExhausted)
  | fuel+1, st, Program.mk nm ei ist im al ci fs gc =>
    rbind (Director.reduceFunctionInputList R fuel st ei) fun st ei' =>
      rbind (Director.reduceImportStatementList R st ist) fun st ist' =>
        rbind (Director.reduceImportsMap R fuel st im) fun st im' =>
          rbind (Director.reduceAliasMap R fuel st al) fun st al' =>
            rbind (Director.reduceCircuitMap R fuel st ci) fun st ci' =>
              rbind (Director.reduceFunctionMap R fuel st fs) fun st fs' =>
                rbind (Director.reduceGlobalConstMap R fuel st gc) fun st gc' =>
                  R.reduce_program st (Program.mk nm ei ist im al ci fs gc) ei' ist' im' al' ci' fs' gc'

end

end Director

/-- A protocol implementation that overrides exactly one hook:
`reduce_identifier` always fails, carrying the identifier's span.  Used to
exhibit the driver's fail-fast behaviour. -/
def failingReducer : Reducer Unit :=
  { mkDefault Unit (fun _ => false) (fun u => u) with
    reduce_identifier := fun st id => (st, Except.error ⟨id.span⟩) }

/-- A protocol implementation that overrides exactly one hook:
`reduce_identifier` fails exactly on identifiers whose span starts at
offset 4 (every other hook is the default).  Used to exhibit the driver's
left-to-right order: a binary node whose right operand sits at offset 4
fails only after its left operand has been reduced. -/
def rightFailingReducer : Reducer Unit :=
  { mkDefault Unit (fun _ => false) (fun u => u) with
    reduce_identifier := fun st id =>
      if id.span.lo = 4 then (st, Except.error ⟨id.span⟩)
      else ReconstructingReducer.reduce_identifier st id }

attribute [simp] rbind RefCell.new

attribute [simp] BinaryExpression.span UnaryExpression.span TernaryExpression.span
  CastExpression.span ArrayAccess.span ArrayRangeAccess.array ArrayRangeAccess.left
  ArrayRangeAccess.right ArrayRangeAccess.span MemberAccess.span TupleAccess.index
  TupleAccess.span StaticAccess.inner StaticAccess.name StaticAccess.type_
  StaticAccess.span ArrayInlineExpression.span ArrayInitExpression.dimensions
  ArrayInitExpression.span TupleInitExpression.span CircuitInitExpression.span
  CallExpression.span ReturnStatement.span DefinitionStatement.declaration_type
  DefinitionStatement.parened DefinitionStatement.type_ DefinitionStatement.span
  Assignee.span AssignStatement.operation AssignStatement.span
  ConditionalStatement.condition ConditionalStatement.block ConditionalStatement.next
  ConditionalStatement.span IterationStatement.inclusive IterationStatement.span
  ConsoleStatement.span ExpressionStatement.span Block.span Function.core_mapping
  Function.span Program.name Program.imports Program.aliases Program.circuits
  Program.functions Program.global_consts

attribute [simp] ReconstructingReducer.reduce_type ReconstructingReducer.reduce_expression
  ReconstructingReducer.reduce_identifier ReconstructingReducer.reduce_group_tuple
  ReconstructingReducer.reduce_group_value ReconstructingReducer.reduce_string
  ReconstructingReducer.reduce_value ReconstructingReducer.reduce_binary
  ReconstructingReducer.reduce_unary ReconstructingReducer.reduce_ternary
  ReconstructingReducer.reduce_cast ReconstructingReducer.reduce_array_access
  ReconstructingReducer.reduce_array_range_access ReconstructingReducer.reduce_member_access
  ReconstructingReducer.reduce_tuple_access ReconstructingReducer.reduce_static_access
  ReconstructingReducer.reduce_array_inline ReconstructingReducer.reduce_array_init
  ReconstructingReducer.reduce_tuple_init
  ReconstructingReducer.reduce_circuit_variable_initializer
  ReconstructingReducer.reduce_circuit_init ReconstructingReducer.reduce_call
  ReconstructingReducer.reduce_statement ReconstructingReducer.reduce_return
  ReconstructingReducer.reduce_variable_name ReconstructingReducer.reduce_definition
  ReconstructingReducer.reduce_assignee_access ReconstructingReducer.reduce_assignee
  ReconstructingReducer.reduce_assign ReconstructingReducer.reduce_conditional
  ReconstructingReducer.reduce_iteration ReconstructingReducer.reduce_console
  ReconstructingReducer.reduce_expression_statement ReconstructingReducer.reduce_block
  ReconstructingReducer.reduce_program ReconstructingReducer.reduce_function_input_variable
  ReconstructingReducer.reduce_function_input ReconstructingReducer.reduce_import_tree
  ReconstructingReducer.reduce_import_statement ReconstructingReducer.reduce_import
  ReconstructingReducer.reduce_circuit_member ReconstructingReducer.reduce_circuit
  ReconstructingReducer.reduce_annotation ReconstructingReducer.reduce_function

/-! Projection lemmas: applying a hook of the all-default implementation
`mkDefault` is applying the corresponding default method. -/

@[simp] theorem mkDefault_reduce_type_eq (σ : Type) (inc : σ → Bool) (swap : σ → σ)
    (st : σ) (t : AstType) (new : AstType) (sp : Span) :
    Reducer.reduce_type (mkDefault σ inc swap) st t new sp =
      ReconstructingReducer.reduce_type st t new sp := rfl

@[simp] theorem mkDefault_reduce_expression_eq (σ : Type) (inc : σ → Bool) (swap : σ → σ)
    (st : σ) (e : Expression) (new : Expression) :
    Reducer.reduce_expression (mkDefault σ inc swap) st e new =
      ReconstructingReducer.reduce_expression st e new := rfl

@[simp] theorem mkDefault_reduce_identifier_eq (σ : Type) (inc : σ → Bool) (swap : σ → σ)
    (st : σ) (id : Identifier) :
    Reducer.reduce_identifier (mkDefault σ inc swap) st id =
      ReconstructingReducer.reduce_identifier st id := rfl

@[simp] theorem mkDefault_reduce_group_tuple_eq (σ : Type) (inc : σ → Bool) (swap : σ → σ)
    (st : σ) (gt : GroupTuple) :
    Reducer.reduce_group_tuple (mkDefault σ inc swap) st gt =
      ReconstructingReducer.reduce_group_tuple st gt := rfl

@[simp] theorem mkDefault_reduce_group_value_eq (σ : Type) (inc : σ → Bool) (swap : σ → σ)
    (st : σ) (gv : GroupValue) (new : GroupValue) :
    Reducer.reduce_group_value (mkDefault σ inc swap) st gv new =
      ReconstructingReducer.reduce_group_value st gv new := rfl

@[simp] theorem mkDefault_reduce_string_eq (σ : Type) (inc : σ → Bool) (swap : σ → σ)
    (st : σ) (s : List Char) (sp : Span) :
    Reducer.reduce_string (mkDefault σ inc swap) st s sp =
      ReconstructingReducer.reduce_string st s sp := rfl

@[simp] theorem mkDefault_reduce_value_eq (σ : Type) (inc : σ → Bool) (swap : σ → σ)
    (st : σ) (v : ValueExpression) (new : Expression) :
    Reducer.reduce_value (mkDefault σ inc swap) st v new =
      ReconstructingReducer.reduce_value st v new := rfl

@[simp] theorem mkDefault_reduce_binary_eq (σ : Type) (inc : σ → Bool) (swap : σ → σ)
    (st : σ) (b : BinaryExpression) (l : Expression) (r : Expression) (op : BinaryOperation) :
    Reducer.reduce_binary (mkDefault σ inc swap) st b l r op =
      ReconstructingReducer.reduce_binary st b l r op := rfl

@[simp] theorem mkDefault_reduce_unary_eq (σ : Type) (inc : σ → Bool) (swap : σ → σ)
    (st : σ) (u : UnaryExpression) (inner : Expression) (op : UnaryOperation) :
    Reducer.reduce_unary (mkDefault σ inc swap) st u inner op =
      ReconstructingReducer.reduce_unary st u inner op := rfl

@[simp] theorem mkDefault_reduce_ternary_eq (σ : Type) (inc : σ → Bool) (swap : σ → σ)
    (st : σ) (t : TernaryExpression) (c : Expression) (tb : Expression) (fb : Expression) :
    Reducer.reduce_ternary (mkDefault σ inc swap) st t c tb fb =
      ReconstructingReducer.reduce_ternary st t c tb fb := rfl

@[simp] theorem mkDefault_reduce_cast_eq (σ : Type) (inc : σ → Bool) (swap : σ → σ)
    (st : σ) (c : CastExpression) (inner : Expression) (ty : AstType) :
    Reducer.reduce_cast (mkDefault σ inc swap) st c inner ty =
      ReconstructingReducer.reduce_cast st c inner ty := rfl

@[simp] theorem mkDefault_reduce_array_access_eq (σ : Type) (inc : σ → Bool) (swap : σ → σ)
    (st : σ) (a : ArrayAccess) (arr : Expression) (idx : Expression) :
    Reducer.reduce_array_access (mkDefault σ inc swap) st a arr idx =
      ReconstructingReducer.reduce_array_access st a arr idx := rfl

@[simp] theorem mkDefault_reduce_array_range_access_eq (σ : Type) (inc : σ → Bool) (swap : σ → σ)
    (st : σ) (a : ArrayRangeAccess) (arr : Expression) (l : Option Expression) (r : Option Expression) :
    Reducer.reduce_array_range_access (mkDefault σ inc swap) st a arr l r =
      ReconstructingReducer.reduce_array_range_access st a arr l r := rfl

@[simp] theorem mkDefault_reduce_member_access_eq (σ : Type) (inc : σ → Bool) (swap : σ → σ)
    (st : σ) (m : MemberAccess) (inner : Expression) (n : Identifier) (ty : Option AstType) :
    Reducer.reduce_member_access (mkDefault σ inc swap) st m inner n ty =
      ReconstructingReducer.reduce_member_access st m inner n ty := rfl

@[simp] theorem mkDefault_reduce_tuple_access_eq (σ : Type) (inc : σ → Bool) (swap : σ → σ)
    (st : σ) (t : TupleAccess) (tup : Expression) :
    Reducer.reduce_tuple_access (mkDefault σ inc swap) st t tup =
      ReconstructingReducer.reduce_tuple_access st t tup := rfl

@[simp] theorem mkDefault_reduce_static_access_eq (σ : Type) (inc : σ → Bool) (swap : σ → σ)
    (st : σ) (s : StaticAccess) (v : Expression) (ty : AstType) (n : Identifier) :
    Reducer.reduce_static_access (mkDefault σ inc swap) st s v ty n =
      ReconstructingReducer.reduce_static_access st s v ty n := rfl

@[simp] theorem mkDefault_reduce_array_inline_eq (σ : Type) (inc : σ → Bool) (swap : σ → σ)
    (st : σ) (a : ArrayInlineExpression) (els : List SpreadOrExpression) :
    Reducer.reduce_array_inline (mkDefault σ inc swap) st a els =
      ReconstructingReducer.reduce_array_inline st a els := rfl

@[simp] theorem mkDefault_reduce_array_init_eq (σ : Type) (inc : σ → Bool) (swap : σ → σ)
    (st : σ) (a : ArrayInitExpression) (el : Expression) :
    Reducer.reduce_array_init (mkDefault σ inc swap) st a el =
      ReconstructingReducer.reduce_array_init st a el := rfl

@[simp] theorem mkDefault_reduce_tuple_init_eq (σ : Type) (inc : σ → Bool) (swap : σ → σ)
    (st : σ) (t : TupleInitExpression) (els : List Expression) :
    Reducer.reduce_tuple_init (mkDefault σ inc swap) st t els =
      ReconstructingReducer.reduce_tuple_init st t els := rfl

@[simp] theorem mkDefault_reduce_circuit_variable_initializer_eq (σ : Type) (inc : σ → Bool) (swap : σ → σ)
    (st : σ) (c : CircuitVariableInitializer) (id : Identifier) (ex : Option Expression) :
    Reducer.reduce_circuit_variable_initializer (mkDefault σ inc swap) st c id ex =
      ReconstructingReducer.reduce_circuit_variable_initializer st c id ex := rfl

@[simp] theorem mkDefault_reduce_circuit_init_eq (σ : Type) (inc : σ → Bool) (swap : σ → σ)
    (st : σ) (c : CircuitInitExpression) (n : Identifier) (ms : List CircuitVariableInitializer) :
    Reducer.reduce_circuit_init (mkDefault σ inc swap) st c n ms =
      ReconstructingReducer.reduce_circuit_init st c n ms := rfl

@[simp] theorem mkDefault_reduce_call_eq (σ : Type) (inc : σ → Bool) (swap : σ → σ)
    (st : σ) (c : CallExpression) (f : Expression) (args : List Expression) :
    Reducer.reduce_call (mkDefault σ inc swap) st c f args =
      ReconstructingReducer.reduce_call st c f args := rfl

@[simp] theorem mkDefault_reduce_statement_eq (σ : Type) (inc : σ → Bool) (swap : σ → σ)
    (st : σ) (s : Statement) (new : Statement) :
    Reducer.reduce_statement (mkDefault σ inc swap) st s new =
      ReconstructingReducer.reduce_statement st s new := rfl

@[simp] theorem mkDefault_reduce_return_eq (σ : Type) (inc : σ → Bool) (swap : σ → σ)
    (st : σ) (r : ReturnStatement) (e : Expression) :
    Reducer.reduce_return (mkDefault σ inc swap) st r e =
      ReconstructingReducer.reduce_return st r e := rfl

@[simp] theorem mkDefault_reduce_variable_name_eq (σ : Type) (inc : σ → Bool) (swap : σ → σ)
    (st : σ) (vn : VariableName) (id : Identifier) :
    Reducer.reduce_variable_name (mkDefault σ inc swap) st vn id =
      ReconstructingReducer.reduce_variable_name st vn id := rfl

@[simp] theorem mkDefault_reduce_definition_eq (σ : Type) (inc : σ → Bool) (swap : σ → σ)
    (st : σ) (d : DefinitionStatement) (vns : List VariableName) (ty : AstType) (v : Expression) :
    Reducer.reduce_definition (mkDefault σ inc swap) st d vns ty v =
      ReconstructingReducer.reduce_definition st d vns ty v := rfl

@[simp] theorem mkDefault_reduce_assignee_access_eq (σ : Type) (inc : σ → Bool) (swap : σ → σ)
    (st : σ) (a : AssigneeAccess) (new : AssigneeAccess) :
    Reducer.reduce_assignee_access (mkDefault σ inc swap) st a new =
      ReconstructingReducer.reduce_assignee_access st a new := rfl

@[simp] theorem mkDefault_reduce_assignee_eq (σ : Type) (inc : σ → Bool) (swap : σ → σ)
    (st : σ) (a : Assignee) (id : Identifier) (accs : List AssigneeAccess) :
    Reducer.reduce_assignee (mkDefault σ inc swap) st a id accs =
      ReconstructingReducer.reduce_assignee st a id accs := rfl

@[simp] theorem mkDefault_reduce_assign_eq (σ : Type) (inc : σ → Bool) (swap : σ → σ)
    (st : σ) (a : AssignStatement) (ae : Assignee) (v : Expression) :
    Reducer.reduce_assign (mkDefault σ inc swap) st a ae v =
      ReconstructingReducer.reduce_assign st a ae v := rfl

@[simp] theorem mkDefault_reduce_conditional_eq (σ : Type) (inc : σ → Bool) (swap : σ → σ)
    (st : σ) (c : ConditionalStatement) (cond : Expression) (blk : Block) (s : Option Statement) :
    Reducer.reduce_conditional (mkDefault σ inc swap) st c cond blk s =
      ReconstructingReducer.reduce_conditional st c cond blk s := rfl

@[simp] theorem mkDefault_reduce_iteration_eq (σ : Type) (inc : σ → Bool) (swap : σ → σ)
    (st : σ) (i : IterationStatement) (id : Identifier) (ty : AstType) (a : Expression) (b : Expression) (blk : Block) :
    Reducer.reduce_iteration (mkDefault σ inc swap) st i id ty a b blk =
      ReconstructingReducer.reduce_iteration st i id ty a b blk := rfl

@[simp] theorem mkDefault_reduce_console_eq (σ : Type) (inc : σ → Bool) (swap : σ → σ)
    (st : σ) (c : ConsoleStatement) (f : ConsoleFunction) :
    Reducer.reduce_console (mkDefault σ inc swap) st c f =
      ReconstructingReducer.reduce_console st c f := rfl

@[simp] theorem mkDefault_reduce_expression_statement_eq (σ : Type) (inc : σ → Bool) (swap : σ → σ)
    (st : σ) (e : ExpressionStatement) (ex : Expression) :
    Reducer.reduce_expression_statement (mkDefault σ inc swap) st e ex =
      ReconstructingReducer.reduce_expression_statement st e ex := rfl

@[simp] theorem mkDefault_reduce_block_eq (σ : Type) (inc : σ → Bool) (swap : σ → σ)
    (st : σ) (b : Block) (ss : List Statement) :
    Reducer.reduce_block (mkDefault σ inc swap) st b ss =
      ReconstructingReducer.reduce_block st b ss := rfl

@[simp] theorem mkDefault_reduce_program_eq (σ : Type) (inc : σ → Bool) (swap : σ → σ)
    (st : σ) (p : Program) (ei : List FunctionInput) (ist : List ImportStatement) (im : IndexMap (List Symbol) Program) (al : IndexMap Identifier Alias) (ci : IndexMap Identifier Circuit) (fs : IndexMap Identifier Function) (gc : IndexMap (List Identifier) DefinitionStatement) :
    Reducer.reduce_program (mkDefault σ inc swap) st p ei ist im al ci fs gc =
      ReconstructingReducer.reduce_program st p ei ist im al ci fs gc := rfl

@[simp] theorem mkDefault_reduce_function_input_variable_eq (σ : Type) (inc : σ → Bool) (swap : σ → σ)
    (st : σ) (v : FunctionInputVariable) (id : Identifier) (ty : AstType) :
    Reducer.reduce_function_input_variable (mkDefault σ inc swap) st v id ty =
      ReconstructingReducer.reduce_function_input_variable st v id ty := rfl

@[simp] theorem mkDefault_reduce_function_input_eq (σ : Type) (inc : σ → Bool) (swap : σ → σ)
    (st : σ) (fi : FunctionInput) (new : FunctionInput) :
    Reducer.reduce_function_input (mkDefault σ inc swap) st fi new =
      ReconstructingReducer.reduce_function_input st fi new := rfl

@[simp] theorem mkDefault_reduce_import_tree_eq (σ : Type) (inc : σ → Bool) (swap : σ → σ)
    (st : σ) (t : ImportTree) (new : ImportTree) :
    Reducer.reduce_import_tree (mkDefault σ inc swap) st t new =
      ReconstructingReducer.reduce_import_tree st t new := rfl

@[simp] theorem mkDefault_reduce_import_statement_eq (σ : Type) (inc : σ → Bool) (swap : σ → σ)
    (st : σ) (i : ImportStatement) (t : ImportTree) :
    Reducer.reduce_import_statement (mkDefault σ inc swap) st i t =
      ReconstructingReducer.reduce_import_statement st i t := rfl

@[simp] theorem mkDefault_reduce_import_eq (σ : Type) (inc : σ → Bool) (swap : σ → σ)
    (st : σ) (path : List Symbol) (p : Program) :
    Reducer.reduce_import (mkDefault σ inc swap) st path p =
      ReconstructingReducer.reduce_import st path p := rfl

@[simp] theorem mkDefault_reduce_circuit_member_eq (σ : Type) (inc : σ → Bool) (swap : σ → σ)
    (st : σ) (m : CircuitMember) (new : CircuitMember) :
    Reducer.reduce_circuit_member (mkDefault σ inc swap) st m new =
      ReconstructingReducer.reduce_circuit_member st m new := rfl

@[simp] theorem mkDefault_reduce_circuit_eq (σ : Type) (inc : σ → Bool) (swap : σ → σ)
    (st : σ) (c : Circuit) (n : Identifier) (ms : List CircuitMember) :
    Reducer.reduce_circuit (mkDefault σ inc swap) st c n ms =
      ReconstructingReducer.reduce_circuit st c n ms := rfl

@[simp] theorem mkDefault_reduce_annotation_eq (σ : Type) (inc : σ → Bool) (swap : σ → σ)
    (st : σ) (a : Annotation) (n : Identifier) :
    Reducer.reduce_annotation (mkDefault σ inc swap) st a n =
      ReconstructingReducer.reduce_annotation st a n := rfl

@[simp] theorem mkDefault_reduce_function_eq (σ : Type) (inc : σ → Bool) (swap : σ → σ)
    (st : σ) (f : Function) (id : Identifier) (anns : IndexMap Symbol Annotation) (inp : List FunctionInput) (c : Bool) (out : AstType) (blk : Block) :
    Reducer.reduce_function (mkDefault σ inc swap) st f id anns inp c out blk =
      ReconstructingReducer.reduce_function st f id anns inp c out blk := rfl

/-! Identity of the fuel-free driver pieces under the all-default
implementation. -/

theorem groupValue_id (σ : Type) (inc : σ → Bool) (swap : σ → σ) (st : σ)
    (gv : GroupValue) :
    Director.reduceGroupValue (mkDefault σ inc swap) st gv = (st, Except.ok gv) := by
  cases gv <;> rfl

theorem value_id (σ : Type) (inc : σ → Bool) (swap : σ → σ) (st : σ)
    (v : ValueExpression) :
    Director.reduceValue (mkDefault σ inc swap) st v =
      (st, Except.ok (Expression.value v)) := by
  cases v with
  | boolean b sp => rfl
  | integer i sp => rfl
  | implicit s sp => rfl
  | group gv => cases gv <;> rfl
  | string s sp => rfl

theorem variableName_id (σ : Type) (inc : σ → Bool) (swap : σ → σ) (st : σ)
    (vn : VariableName) :
    Director.reduceVariableName (mkDefault σ inc swap) st vn = (st, Except.ok vn) := rfl

theorem variableNameList_id (σ : Type) (inc : σ → Bool) (swap : σ → σ) :
    ∀ (st : σ) (l : List VariableName),
      Director.reduceVariableNameList (mkDefault σ inc swap) st l = (st, Except.ok l) := by
  intro st l
  induction l generalizing st with
  | nil => rfl
  | cons vn rest ih =>
    simp [Director.reduceVariableNameList, variableName_id, ih]

theorem annotationEntry_id (σ : Type) (inc : σ → Bool) (swap : σ → σ) (st : σ)
    (ann : Annotation) :
    Director.reduceAnnotationEntry (mkDefault σ inc swap) st ann = (st, Except.ok ann) := rfl

theorem annotationMap_id (σ : Type) (inc : σ → Bool) (swap : σ → σ) :
    ∀ (st : σ) (m : IndexMap Symbol Annotation),
      Director.reduceAnnotationMap (mkDefault σ inc swap) st m = (st, Except.ok m) := by
  intro st m
  induction m generalizing st with
  | nil => rfl
  | cons kv rest ih =>
    obtain ⟨key, ann⟩ := kv
    simp [Director.reduceAnnotationMap, annotationEntry_id, ih]

theorem importStatement_id (σ : Type) (inc : σ → Bool) (swap : σ → σ) (st : σ)
    (is : ImportStatement) :
    Director.reduceImportStatement (mkDefault σ inc swap) st is = (st, Except.ok is) := rfl

theorem importStatementList_id (σ : Type) (inc : σ → Bool) (swap : σ → σ) :
    ∀ (st : σ) (l : List ImportStatement),
      Director.reduceImportStatementList (mkDefault σ inc swap) st l = (st, Except.ok l) := by
  intro st l
  induction l generalizing st with
  | nil => rfl
  | cons is rest ih =>
    simp [Director.reduceImportStatementList, importStatement_id, ih]

/-- Identity of the whole driver under the all-default implementation: with
fuel exceeding the node's size, every driver function returns its input
unchanged together with the untouched state.  One conjunct per driver
function, proved by one induction on the fuel. -/
theorem driver_id (σ : Type) (inc : σ → Bool) (swap : σ → σ) :
    ∀ fuel : Nat,
    (∀ (st : σ) (t : AstType) (sp : Span), sizeOf t < fuel →
      Director.reduceType (mkDefault σ inc swap) fuel st t sp = (st, Except.ok t))
  ∧ (∀ (st : σ) (ts : List AstType) (sp : Span), sizeOf ts < fuel →
      Director.reduceTypeList (mkDefault σ inc swap) fuel st ts sp = (st, Except.ok ts))
  ∧ (∀ (st : σ) (ot : Option AstType) (sp : Span), sizeOf ot < fuel →
      Director.reduceTypeOpt (mkDefault σ inc swap) fuel st ot sp = (st, Except.ok ot))
  ∧ (∀ (st : σ) (e : Expression), sizeOf e < fuel →
      Director.reduceExpression (mkDefault σ inc swap) fuel st e = (st, Except.ok e))
  ∧ (∀ (st : σ) (oe : Option Expression), sizeOf oe < fuel →
      Director.reduceExpressionOpt (mkDefault σ inc swap) fuel st oe = (st, Except.ok oe))
  ∧ (∀ (st : σ) (es : List Expression), sizeOf es < fuel →
      Director.reduceExpressionList (mkDefault σ inc swap) fuel st es = (st, Except.ok es))
  ∧ (∀ (st : σ) (se : SpreadOrExpression), sizeOf se < fuel →
      Director.reduceSpreadOrExpression (mkDefault σ inc swap) fuel st se = (st, Except.ok se))
  ∧ (∀ (st : σ) (ses : List SpreadOrExpression), sizeOf ses < fuel →
      Director.reduceSpreadOrExpressionList (mkDefault σ inc swap) fuel st ses = (st, Except.ok ses))
  ∧ (∀ (st : σ) (cv : CircuitVariableInitializer), sizeOf cv < fuel →
      Director.reduceCvi (mkDefault σ inc swap) fuel st cv = (st, Except.ok cv))
  ∧ (∀ (st : σ) (cvs : List CircuitVariableInitializer), sizeOf cvs < fuel →
      Director.reduceCviList (mkDefault σ inc swap) fuel st cvs = (st, Except.ok cvs))
  ∧ (∀ (st : σ) (ac : AssigneeAccess), sizeOf ac < fuel →
      Director.reduceAssigneeAccess (mkDefault σ inc swap) fuel st ac = (st, Except.ok ac))
  ∧ (∀ (st : σ) (acs : List AssigneeAccess), sizeOf acs < fuel →
      Director.reduceAssigneeAccessList (mkDefault σ inc swap) fuel st acs = (st, Except.ok acs))
  ∧ (∀ (st : σ) (asg : Assignee), sizeOf asg < fuel →
      Director.reduceAssignee (mkDefault σ inc swap) fuel st asg = (st, Except.ok asg))
  ∧ (∀ (st : σ) (d : DefinitionStatement), sizeOf d < fuel →
      Director.reduceDefinition (mkDefault σ inc swap) fuel st d = (st, Except.ok d))
  ∧ (∀ (st : σ) (s : Statement), sizeOf s < fuel →
      Director.reduceStatement (mkDefault σ inc swap) fuel st s = (st, Except.ok s))
  ∧ (∀ (st : σ) (os : Option Statement), sizeOf os < fuel →
      Director.reduceStatementOpt (mkDefault σ inc swap) fuel st os = (st, Except.ok os))
  ∧ (∀ (st : σ) (ss : List Statement), sizeOf ss < fuel →
      Director.reduceStatementList (mkDefault σ inc swap) fuel st ss = (st, Except.ok ss))
  ∧ (∀ (st : σ) (b : Block), sizeOf b < fuel →
      Director.reduceBlock (mkDefault σ inc swap) fuel st b = (st, Except.ok b))
  ∧ (∀ (st : σ) (cf : ConsoleFunction), sizeOf cf < fuel →
      Director.reduceConsoleFunction (mkDefault σ inc swap) fuel st cf = (st, Except.ok cf))
  ∧ (∀ (st : σ) (fv : FunctionInputVariable), sizeOf fv < fuel →
      Director.reduceFunctionInputVariable (mkDefault σ inc swap) fuel st fv = (st, Except.ok fv))
  ∧ (∀ (st : σ) (fi : FunctionInput), sizeOf fi < fuel →
      Director.reduceFunctionInput (mkDefault σ inc swap) fuel st fi = (st, Except.ok fi))
  ∧ (∀ (st : σ) (fis : List FunctionInput), sizeOf fis < fuel →
      Director.reduceFunctionInputList (mkDefault σ inc swap) fuel st fis = (st, Except.ok fis))
  ∧ (∀ (st : σ) (fn : Function), sizeOf fn < fuel →
      Director.reduceFunction (mkDefault σ inc swap) fuel st fn = (st, Except.ok fn))
  ∧ (∀ (st : σ) (cm : CircuitMember), sizeOf cm < fuel →
      Director.reduceCircuitMember (mkDefault σ inc swap) fuel st cm = (st, Except.ok cm))
  ∧ (∀ (st : σ) (cms : List CircuitMember), sizeOf cms < fuel →
      Director.reduceCircuitMemberList (mkDefault σ inc swap) fuel st cms = (st, Except.ok cms))
  ∧ (∀ (st : σ) (ci : Circuit), sizeOf ci < fuel →
      Director.reduceCircuit (mkDefault σ inc swap) fuel st ci = (st, Except.ok ci))
  ∧ (∀ (st : σ) (al : Alias), sizeOf al < fuel →
      Director.reduceAlias (mkDefault σ inc swap) fuel st al = (st, Except.ok al))
  ∧ (∀ (st : σ) (als : IndexMap Identifier Alias), sizeOf als < fuel →
      Director.reduceAliasMap (mkDefault σ inc swap) fuel st als = (st, Except.ok als))
  ∧ (∀ (st : σ) (cis : IndexMap Identifier Circuit), sizeOf cis < fuel →
      Director.reduceCircuitMap (mkDefault σ inc swap) fuel st cis = (st, Except.ok cis))
  ∧ (∀ (st : σ) (fns : IndexMap Identifier Function), sizeOf fns < fuel →
      Director.reduceFunctionMap (mkDefault σ inc swap) fuel st fns = (st, Except.ok fns))
  ∧ (∀ (st : σ) (gcs : IndexMap (List Identifier) DefinitionStatement), sizeOf gcs < fuel →
      Director.reduceGlobalConstMap (mkDefault σ inc swap) fuel st gcs = (st, Except.ok gcs))
  ∧ (∀ (st : σ) (ims : IndexMap (List Symbol) Program), sizeOf ims < fuel →
      Director.reduceImportsMap (mkDefault σ inc swap) fuel st ims = (st, Except.ok ims))
  ∧ (∀ (st : σ) (p : Program), sizeOf p < fuel →
      Director.reduceProgram (mkDefault σ inc swap) fuel st p = (st, Except.ok p)) := by
  intro fuel
  induction fuel with
  | zero =>
    refine ⟨?_, ?_, ?_, ?_, ?_, ?_, ?_, ?_, ?_, ?_, ?_, ?_, ?_, ?_, ?_, ?_, ?_,
      ?_, ?_, ?_, ?_, ?_, ?_, ?_, ?_, ?_, ?_, ?_, ?_, ?_, ?_, ?_, ?_⟩ <;>
      (intros; omega)
  | succ fuel ih =>
    obtain ⟨iT, iTL, iTO, iE, iEO, iEL, iSo, iSoL, iCv, iCvL, iAa, iAaL, iAs, iD,
      iSt, iStO, iStL, iB, iCF, iFV, iFI, iFIL, iF, iCM, iCML, iCi, iAl, iAlM,
      iCiM, iFnM, iGCM, iImM, iP⟩ := ih
    refine ⟨?_, ?_, ?_, ?_, ?_, ?_, ?_, ?_, ?_, ?_, ?_, ?_, ?_, ?_, ?_, ?_, ?_,
      ?_, ?_, ?_, ?_, ?_, ?_, ?_, ?_, ?_, ?_, ?_, ?_, ?_, ?_, ?_, ?_⟩
    · intro st t sp h
      cases t with
      | primitive tag => simp [Director.reduceType]
      | identifier id => simp [Director.reduceType]
      | array el dims =>
        simp at h
        simp [Director.reduceType, iT st el sp (by omega)]
      | tuple els =>
        simp at h
        simp [Director.reduceType, iTL st els sp (by omega)]
      | selfType => simp [Director.reduceType]
    · intro st ts sp h
      cases ts with
      | nil => simp [Director.reduceTypeList]
      | cons t rest =>
        simp at h
        simp [Director.reduceTypeList, iT st t sp (by omega), iTL st rest sp (by omega)]
    · intro st ot sp h
      cases ot with
      | none => simp [Director.reduceTypeOpt]
      | some t =>
        simp at h
        simp [Director.reduceTypeOpt, iT st t sp (by omega)]
    · intro st e h
      cases e with
      | identifier id => simp [Director.reduceExpression]
      | value v => simp [Director.reduceExpression, value_id]
      | binary b =>
        obtain ⟨l, r, op, sp⟩ := b
        simp at h
        simp [Director.reduceExpression, iE st l (by omega), iE st r (by omega)]
      | unary u =>
        obtain ⟨inner, op, sp⟩ := u
        simp at h
        simp [Director.reduceExpression, iE st inner (by omega)]
      | ternary t =>
        obtain ⟨c, tb, fb, sp⟩ := t
        simp at h
        simp [Director.reduceExpression, iE st c (by omega), iE st tb (by omega),
          iE st fb (by omega)]
      | cast c =>
        obtain ⟨inner, tt, sp⟩ := c
        simp at h
        simp [Director.reduceExpression, iE st inner (by omega), iT st tt sp (by omega)]
      | arrayAccess a =>
        obtain ⟨arr, idx, sp⟩ := a
        simp at h
        simp [Director.reduceExpression, iE st arr (by omega), iE st idx (by omega)]
      | arrayRangeAccess a =>
        obtain ⟨arr, l, r, sp⟩ := a
        simp at h
        simp [Director.reduceExpression, iE st arr (by omega), iEO st l (by omega),
          iEO st r (by omega)]
      | memberAccess m =>
        obtain ⟨inner, n, sp, ty⟩ := m
        simp at h
        simp [Director.reduceExpression, iE st inner (by omega), iTO st ty sp (by omega)]
      | tupleAccess t =>
        obtain ⟨tup, idx, sp⟩ := t
        simp at h
        simp [Director.reduceExpression, iE st tup (by omega)]
      | staticAccess s =>
        obtain ⟨inner, n, cell, sp⟩ := s
        obtain ⟨ty⟩ := cell
        simp at h
        simp [Director.reduceExpression, iE st inner (by omega), iT st ty sp (by omega)]
      | arrayInline a =>
        obtain ⟨els, sp⟩ := a
        simp at h
        simp [Director.reduceExpression, iSoL st els (by omega)]
      | arrayInit a =>
        obtain ⟨el, dims, sp⟩ := a
        simp at h
        simp [Director.reduceExpression, iE st el (by omega)]
      | tupleInit t =>
        obtain ⟨els, sp⟩ := t
        simp at h
        simp [Director.reduceExpression, iEL st els (by omega)]
      | circuitInit c =>
        obtain ⟨n, ms, sp⟩ := c
        simp at h
        simp [Director.reduceExpression, iCvL st ms (by omega)]
      | call c =>
        obtain ⟨f, args, sp⟩ := c
        simp at h
        simp [Director.reduceExpression, iE st f (by omega), iEL st args (by omega)]
    · intro st oe h
      cases oe with
      | none => simp [Director.reduceExpressionOpt]
      | some e =>
        simp at h
        simp [Director.reduceExpressionOpt, iE st e (by omega)]
    · intro st es h
      cases es with
      | nil => simp [Director.reduceExpressionList]
      | cons e rest =>
        simp at h
        simp [Director.reduceExpressionList, iE st e (by omega), iEL st rest (by omega)]
    · intro st se h
      cases se with
      | spread e =>
        simp at h
        simp [Director.reduceSpreadOrExpression, iE st e (by omega)]
      | expression e =>
        simp at h
        simp [Director.reduceSpreadOrExpression, iE st e (by omega)]
    · intro st ses h
      cases ses with
      | nil => simp [Director.reduceSpreadOrExpressionList]
      | cons se rest =>
        simp at h
        simp [Director.reduceSpreadOrExpressionList, iSo st se (by omega),
          iSoL st rest (by omega)]
    · intro st cv h
      obtain ⟨id, ex⟩ := cv
      simp at h
      simp [Director.reduceCvi, iEO st ex (by omega)]
    · intro st cvs h
      cases cvs with
      | nil => simp [Director.reduceCviList]
      | cons cv rest =>
        simp at h
        simp [Director.reduceCviList, iCv st cv (by omega), iCvL st rest (by omega)]
    · intro st ac h
      cases ac with
      | arrayRange l r =>
        simp at h
        simp [Director.reduceAssigneeAccess, iEO st l (by omega), iEO st r (by omega)]
      | arrayIndex i =>
        simp at h
        simp [Director.reduceAssigneeAccess, iE st i (by omega)]
      | tuple idx sp => simp [Director.reduceAssigneeAccess]
      | member n => simp [Director.reduceAssigneeAccess]
    · intro st acs h
      cases acs with
      | nil => simp [Director.reduceAssigneeAccessList]
      | cons ac rest =>
        simp at h
        simp [Director.reduceAssigneeAccessList, iAa st ac (by omega),
          iAaL st rest (by omega)]
    · intro st asg h
      obtain ⟨id, accs, sp⟩ := asg
      simp at h
      simp [Director.reduceAssignee, iAaL st accs (by omega)]
    · intro st d h
      obtain ⟨dt, vns, par, ty, val, sp⟩ := d
      simp at h
      simp [Director.reduceDefinition, variableNameList_id, iT st ty sp (by omega),
        iE st val (by omega)]
    · intro st s h
      cases s with
      | ret r =>
        obtain ⟨e, sp⟩ := r
        simp at h
        simp [Director.reduceStatement, iE st e (by omega)]
      | definition d =>
        simp at h
        simp [Director.reduceStatement, iD st d (by omega)]
      | assign a =>
        obtain ⟨op, ae, v, sp⟩ := a
        simp at h
        simp [Director.reduceStatement, iAs st ae (by omega), iE st v (by omega)]
      | conditional c =>
        obtain ⟨cond, blk, nxt, sp⟩ := c
        simp at h
        simp [Director.reduceStatement, iE st cond (by omega), iB st blk (by omega),
          iStO st nxt (by omega)]
      | iteration it =>
        obtain ⟨v, ty, a, b, incl, blk, sp⟩ := it
        simp at h
        simp [Director.reduceStatement, iT st ty sp (by omega), iE st a (by omega),
          iE st b (by omega), iB st blk (by omega)]
      | console c =>
        obtain ⟨f, sp⟩ := c
        simp at h
        simp [Director.reduceStatement, iCF st f (by omega)]
      | expression e =>
        obtain ⟨ex, sp⟩ := e
        simp at h
        simp [Director.reduceStatement, iE st ex (by omega)]
      | block b =>
        simp at h
        simp [Director.reduceStatement, iB st b (by omega)]
    · intro st os h
      cases os with
      | none => simp [Director.reduceStatementOpt]
      | some s =>
        simp at h
        simp [Director.reduceStatementOpt, iSt st s (by omega)]
    · intro st ss h
      cases ss with
      | nil => simp [Director.reduceStatementList]
      | cons s rest =>
        simp at h
        simp [Director.reduceStatementList, iSt st s (by omega), iStL st rest (by omega)]
    · intro st b h
      obtain ⟨ss, sp⟩ := b
      simp at h
      simp [Director.reduceBlock, iStL st ss (by omega)]
    · intro st cf h
      cases cf with
      | assert e =>
        simp at h
        simp [Director.reduceConsoleFunction, iE st e (by omega)]
      | error args =>
        obtain ⟨cs, params, sp⟩ := args
        simp at h
        simp [Director.reduceConsoleFunction, iEL st params (by omega)]
      | log args =>
        obtain ⟨cs, params, sp⟩ := args
        simp at h
        simp [Director.reduceConsoleFunction, iEL st params (by omega)]
    · intro st fv h
      obtain ⟨id, c, m, ty, sp⟩ := fv
      simp at h
      simp [Director.reduceFunctionInputVariable, iT st ty sp (by omega)]
    · intro st fi h
      cases fi with
      | inputKeyword sp => simp [Director.reduceFunctionInput]
      | selfKeyword sp => simp [Director.reduceFunctionInput]
      | constSelfKeyword sp => simp [Director.reduceFunctionInput]
      | mutSelfKeyword sp => simp [Director.reduceFunctionInput]
      | variableInput v =>
        simp at h
        simp [Director.reduceFunctionInput, iFV st v (by omega)]
    · intro st fis h
      cases fis with
      | nil => simp [Director.reduceFunctionInputList]
      | cons fi rest =>
        simp at h
        simp [Director.reduceFunctionInputList, iFI st fi (by omega),
          iFIL st rest (by omega)]
    · intro st fn h
      obtain ⟨id, anns, inp, c, out, blk, cm, sp⟩ := fn
      simp at h
      simp [Director.reduceFunction, annotationMap_id, iFIL st inp (by omega),
        iT st out sp (by omega), iB st blk (by omega)]
    · intro st cm h
      cases cm with
      | circuitVariable n ty =>
        simp at h
        simp [Director.reduceCircuitMember, iT st ty n.span (by omega)]
      | circuitFunction f =>
        simp at h
        simp [Director.reduceCircuitMember, iF st f (by omega)]
    · intro st cms h
      cases cms with
      | nil => simp [Director.reduceCircuitMemberList]
      | cons cm rest =>
        simp at h
        simp [Director.reduceCircuitMemberList, iCM st cm (by omega),
          iCML st rest (by omega)]
    · intro st ci h
      obtain ⟨n, ms⟩ := ci
      simp at h
      simp [Director.reduceCircuit, iCML st ms (by omega)]
    · intro st al h
      obtain ⟨n, rep, sp⟩ := al
      simp at h
      simp [Director.reduceAlias, iT st rep sp (by omega)]
    · intro st als h
      cases als with
      | nil => simp [Director.reduceAliasMap]
      | cons kv rest =>
        obtain ⟨key, al⟩ := kv
        simp at h
        simp [Director.reduceAliasMap, iAl st al (by omega), iAlM st rest (by omega)]
    · intro st cis h
      cases cis with
      | nil => simp [Director.reduceCircuitMap]
      | cons kv rest =>
        obtain ⟨key, ci⟩ := kv
        simp at h
        simp [Director.reduceCircuitMap, iCi st ci (by omega), iCiM st rest (by omega)]
    · intro st fns h
      cases fns with
      | nil => simp [Director.reduceFunctionMap]
      | cons kv rest =>
        obtain ⟨key, fn⟩ := kv
        simp at h
        simp [Director.reduceFunctionMap, iF st fn (by omega), iFnM st rest (by omega)]
    · intro st gcs h
      cases gcs with
      | nil => simp [Director.reduceGlobalConstMap]
      | cons kv rest =>
        obtain ⟨key, d⟩ := kv
        simp at h
        simp [Director.reduceGlobalConstMap, iD st d (by omega), iGCM st rest (by omega)]
    · intro st ims h
      cases ims with
      | nil => simp [Director.reduceImportsMap]
      | cons kv rest =>
        obtain ⟨path, prog⟩ := kv
        simp at h
        simp [Director.reduceImportsMap, iP st prog (by omega), iImM st rest (by omega)]
    · intro st p h
      obtain ⟨nm, ei, ist, im, al, ci, fs, gc⟩ := p
      simp at h
      simp [Director.reduceProgram, iFIL st ei (by omega), importStatementList_id,
        iImM st im (by omega), iAlM st al (by omega), iCiM st ci (by omega),
        iFnM st fs (by omega), iGCM st gc (by omega)]

/-- Identity of the driver's entry point under the all-default
implementation, with the fuel chosen from the program's own size. -/
theorem program_id (σ : Type) (inc : σ → Bool) (swap : σ → σ) (st : σ) (p : Program) :
    Director.reduceProgram (mkDefault σ inc swap) (sizeOf p + 1) st p =
      (st, Except.ok p) := by
  obtain ⟨-, -, -, -, -, -, -, -, -, -, -, -, -, -, -, -, -, -, -, -, -, -, -, -,
    -, -, -, -, -, -, -, -, iP⟩ := driver_id σ inc swap (sizeOf p + 1)
  exact iP st p (by omega)


/-! The claims. -/

/-- C1: for every node kind, the default reduction method, given the
original node and already-reduced children structurally equal to the
original's children, returns `Ok` of a node structurally equal to the
original, field-for-field; hence the driver with an implementation that
overrides no hook is an identity transformation on any well-formed AST. -/
theorem claim_C1 :
    (∀ (σ : Type) (st : σ) (t : AstType) (sp : Span),
      ReconstructingReducer.reduce_type st t t sp =
        (st, Except.ok (t)))
  ∧ (∀ (σ : Type) (st : σ) (e : Expression),
      ReconstructingReducer.reduce_expression st e e =
        (st, Except.ok (e)))
  ∧ (∀ (σ : Type) (st : σ) (id : Identifier),
      ReconstructingReducer.reduce_identifier st id =
        (st, Except.ok (id)))
  ∧ (∀ (σ : Type) (st : σ) (gt : GroupTuple),
      ReconstructingReducer.reduce_group_tuple st gt =
        (st, Except.ok (gt)))
  ∧ (∀ (σ : Type) (st : σ) (gv : GroupValue),
      ReconstructingReducer.reduce_group_value st gv gv =
        (st, Except.ok (gv)))
  ∧ (∀ (σ : Type) (st : σ) (s : List Char) (sp : Span),
      ReconstructingReducer.reduce_string st s sp =
        (st, Except.ok (Expression.value (ValueExpression.string s sp))))
  ∧ (∀ (σ : Type) (st : σ) (v : ValueExpression),
      ReconstructingReducer.reduce_value st v (Expression.value v) =
        (st, Except.ok (Expression.value v)))
  ∧ (∀ (σ : Type) (st : σ) (l r : Expression) (op : BinaryOperation) (sp : Span),
      ReconstructingReducer.reduce_binary st (BinaryExpression.mk l r op sp) l r op =
        (st, Except.ok (BinaryExpression.mk l r op sp)))
  ∧ (∀ (σ : Type) (st : σ) (inner : Expression) (op : UnaryOperation) (sp : Span),
      ReconstructingReducer.reduce_unary st (UnaryExpression.mk inner op sp) inner op =
        (st, Except.ok (UnaryExpression.mk inner op sp)))
  ∧ (∀ (σ : Type) (st : σ) (c tb fb : Expression) (sp : Span),
      ReconstructingReducer.reduce_ternary st (TernaryExpression.mk c tb fb sp) c tb fb =
        (st, Except.ok (TernaryExpression.mk c tb fb sp)))
  ∧ (∀ (σ : Type) (st : σ) (inner : Expression) (ty : AstType) (sp : Span),
      ReconstructingReducer.reduce_cast st (CastExpression.mk inner ty sp) inner ty =
        (st, Except.ok (CastExpression.mk inner ty sp)))
  ∧ (∀ (σ : Type) (st : σ) (arr idx : Expression) (sp : Span),
      ReconstructingReducer.reduce_array_access st (ArrayAccess.mk arr idx sp) arr idx =
        (st, Except.ok (ArrayAccess.mk arr idx sp)))
  ∧ (∀ (σ : Type) (st : σ) (arr : Expression) (l r : Option Expression) (sp : Span),
      ReconstructingReducer.reduce_array_range_access st (ArrayRangeAccess.mk arr l r sp) arr l r =
        (st, Except.ok (ArrayRangeAccess.mk arr l r sp)))
  ∧ (∀ (σ : Type) (st : σ) (inner : Expression) (n : Identifier) (sp : Span) (ty : Option AstType),
      ReconstructingReducer.reduce_member_access st (MemberAccess.mk inner n sp ty) inner n ty =
        (st, Except.ok (MemberAccess.mk inner n sp ty)))
  ∧ (∀ (σ : Type) (st : σ) (tup : Expression) (idx : PositiveNumber) (sp : Span),
      ReconstructingReducer.reduce_tuple_access st (TupleAccess.mk tup idx sp) tup =
        (st, Except.ok (TupleAccess.mk tup idx sp)))
  ∧ (∀ (σ : Type) (st : σ) (v : Expression) (n : Identifier) (ty : AstType) (sp : Span),
      ReconstructingReducer.reduce_static_access st (StaticAccess.mk v n (RefCell.mk ty) sp) v ty n =
        (st, Except.ok (StaticAccess.mk v n (RefCell.mk ty) sp)))
  ∧ (∀ (σ : Type) (st : σ) (els : List SpreadOrExpression) (sp : Span),
      ReconstructingReducer.reduce_array_inline st (ArrayInlineExpression.mk els sp) els =
        (st, Except.ok (ArrayInlineExpression.mk els sp)))
  ∧ (∀ (σ : Type) (st : σ) (el : Expression) (dims : ArrayDimensions) (sp : Span),
      ReconstructingReducer.reduce_array_init st (ArrayInitExpression.mk el dims sp) el =
        (st, Except.ok (ArrayInitExpression.mk el dims sp)))
  ∧ (∀ (σ : Type) (st : σ) (els : List Expression) (sp : Span),
      ReconstructingReducer.reduce_tuple_init st (TupleInitExpression.mk els sp) els =
        (st, Except.ok (TupleInitExpression.mk els sp)))
  ∧ (∀ (σ : Type) (st : σ) (id : Identifier) (ex : Option Expression),
      ReconstructingReducer.reduce_circuit_variable_initializer st (CircuitVariableInitializer.mk id ex) id ex =
        (st, Except.ok (CircuitVariableInitializer.mk id ex)))
  ∧ (∀ (σ : Type) (st : σ) (n : Identifier) (ms : List CircuitVariableInitializer) (sp : Span),
      ReconstructingReducer.reduce_circuit_init st (CircuitInitExpression.mk n ms sp) n ms =
        (st, Except.ok (CircuitInitExpression.mk n ms sp)))
  ∧ (∀ (σ : Type) (st : σ) (f : Expression) (args : List Expression) (sp : Span),
      ReconstructingReducer.reduce_call st (CallExpression.mk f args sp) f args =
        (st, Except.ok (CallExpression.mk f args sp)))
  ∧ (∀ (σ : Type) (st : σ) (s : Statement),
      ReconstructingReducer.reduce_statement st s s =
        (st, Except.ok (s)))
  ∧ (∀ (σ : Type) (st : σ) (e : Expression) (sp : Span),
      ReconstructingReducer.reduce_return st (ReturnStatement.mk e sp) e =
        (st, Except.ok (ReturnStatement.mk e sp)))
  ∧ (∀ (σ : Type) (st : σ) (m : Bool) (id : Identifier) (sp : Span),
      ReconstructingReducer.reduce_variable_name st (VariableName.mk m id sp) id =
        (st, Except.ok (VariableName.mk m id sp)))
  ∧ (∀ (σ : Type) (st : σ) (dt : Declare) (vns : List VariableName) (par : Bool) (ty : AstType) (v : Expression) (sp : Span),
      ReconstructingReducer.reduce_definition st (DefinitionStatement.mk dt vns par ty v sp) vns ty v =
        (st, Except.ok (DefinitionStatement.mk dt vns par ty v sp)))
  ∧ (∀ (σ : Type) (st : σ) (a : AssigneeAccess),
      ReconstructingReducer.reduce_assignee_access st a a =
        (st, Except.ok (a)))
  ∧ (∀ (σ : Type) (st : σ) (id : Identifier) (accs : List AssigneeAccess) (sp : Span),
      ReconstructingReducer.reduce_assignee st (Assignee.mk id accs sp) id accs =
        (st, Except.ok (Assignee.mk id accs sp)))
  ∧ (∀ (σ : Type) (st : σ) (op : AssignOperation) (ae : Assignee) (v : Expression) (sp : Span),
      ReconstructingReducer.reduce_assign st (AssignStatement.mk op ae v sp) ae v =
        (st, Except.ok (AssignStatement.mk op ae v sp)))
  ∧ (∀ (σ : Type) (st : σ) (cond : Expression) (blk : Block) (nxt : Option Statement) (sp : Span),
      ReconstructingReducer.reduce_conditional st (ConditionalStatement.mk cond blk nxt sp) cond blk nxt =
        (st, Except.ok (ConditionalStatement.mk cond blk nxt sp)))
  ∧ (∀ (σ : Type) (st : σ) (v : Identifier) (ty : AstType) (a b : Expression) (incl : Bool) (blk : Block) (sp : Span),
      ReconstructingReducer.reduce_iteration st (IterationStatement.mk v ty a b incl blk sp) v ty a b blk =
        (st, Except.ok (IterationStatement.mk v ty a b incl blk sp)))
  ∧ (∀ (σ : Type) (st : σ) (f : ConsoleFunction) (sp : Span),
      ReconstructingReducer.reduce_console st (ConsoleStatement.mk f sp) f =
        (st, Except.ok (ConsoleStatement.mk f sp)))
  ∧ (∀ (σ : Type) (st : σ) (e : Expression) (sp : Span),
      ReconstructingReducer.reduce_expression_statement st (ExpressionStatement.mk e sp) e =
        (st, Except.ok (ExpressionStatement.mk e sp)))
  ∧ (∀ (σ : Type) (st : σ) (ss : List Statement) (sp : Span),
      ReconstructingReducer.reduce_block st (Block.mk ss sp) ss =
        (st, Except.ok (Block.mk ss sp)))
  ∧ (∀ (σ : Type) (st : σ) (nm : String) (ei : List FunctionInput) (ist : List ImportStatement) (im : IndexMap (List Symbol) Program) (al : IndexMap Identifier Alias) (ci : IndexMap Identifier Circuit) (fs : IndexMap Identifier Function) (gc : IndexMap (List Identifier) DefinitionStatement),
      ReconstructingReducer.reduce_program st (Program.mk nm ei ist im al ci fs gc) ei ist im al ci fs gc =
        (st, Except.ok (Program.mk nm ei ist im al ci fs gc)))
  ∧ (∀ (σ : Type) (st : σ) (id : Identifier) (c m : Bool) (ty : AstType) (sp : Span),
      ReconstructingReducer.reduce_function_input_variable st (FunctionInputVariable.mk id c m ty sp) id ty =
        (st, Except.ok (FunctionInputVariable.mk id c m ty sp)))
  ∧ (∀ (σ : Type) (st : σ) (fi : FunctionInput),
      ReconstructingReducer.reduce_function_input st fi fi =
        (st, Except.ok (fi)))
  ∧ (∀ (σ : Type) (st : σ) (t : ImportTree),
      ReconstructingReducer.reduce_import_tree st t t =
        (st, Except.ok (t)))
  ∧ (∀ (σ : Type) (st : σ) (tr : ImportTree) (sp : Span),
      ReconstructingReducer.reduce_import_statement st (ImportStatement.mk tr sp) tr =
        (st, Except.ok (ImportStatement.mk tr sp)))
  ∧ (∀ (σ : Type) (st : σ) (path : List Symbol) (p : Program),
      ReconstructingReducer.reduce_import st path p =
        (st, Except.ok ((path, p))))
  ∧ (∀ (σ : Type) (st : σ) (m : CircuitMember),
      ReconstructingReducer.reduce_circuit_member st m m =
        (st, Except.ok (m)))
  ∧ (∀ (σ : Type) (st : σ) (n : Identifier) (ms : List CircuitMember),
      ReconstructingReducer.reduce_circuit st (Circuit.mk n ms) n ms =
        (st, Except.ok (Circuit.mk n ms)))
  ∧ (∀ (σ : Type) (st : σ) (sp : Span) (n : Identifier) (args : List Symbol),
      ReconstructingReducer.reduce_annotation st ( Annotation.mk sp n args) n =
        (st, Except.ok ( Annotation.mk sp n args)))
  ∧ (∀ (σ : Type) (st : σ) (id : Identifier) (anns : IndexMap Symbol Annotation) (inp : List FunctionInput) (c : Bool) (out : AstType) (blk : Block) (cm : CoreMapping) (sp : Span),
      ReconstructingReducer.reduce_function st (Function.mk id anns inp c out blk cm sp) id anns inp c out blk =
        (st, Except.ok (Function.mk id anns inp c out blk cm sp)))
  ∧ (∀ (σ : Type) (inc : σ → Bool) (swap : σ → σ) (st : σ) (p : Program),
      Director.reduceProgram (mkDefault σ inc swap) (sizeOf p + 1) st p =
        (st, Except.ok p)) :=
  ⟨fun σ st t sp => rfl,
   fun σ st e => rfl,
   fun σ st id => rfl,
   fun σ st gt => rfl,
   fun σ st gv => rfl,
   fun σ st s sp => rfl,
   fun σ st v => rfl,
   fun σ st l r op sp => rfl,
   fun σ st inner op sp => rfl,
   fun σ st c tb fb sp => rfl,
   fun σ st inner ty sp => rfl,
   fun σ st arr idx sp => rfl,
   fun σ st arr l r sp => rfl,
   fun σ st inner n sp ty => rfl,
   fun σ st tup idx sp => rfl,
   fun σ st v n ty sp => rfl,
   fun σ st els sp => rfl,
   fun σ st el dims sp => rfl,
   fun σ st els sp => rfl,
   fun σ st id ex => rfl,
   fun σ st n ms sp => rfl,
   fun σ st f args sp => rfl,
   fun σ st s => rfl,
   fun σ st e sp => rfl,
   fun σ st m id sp => rfl,
   fun σ st dt vns par ty v sp => rfl,
   fun σ st a => rfl,
   fun σ st id accs sp => rfl,
   fun σ st op ae v sp => rfl,
   fun σ st cond blk nxt sp => rfl,
   fun σ st v ty a b incl blk sp => rfl,
   fun σ st f sp => rfl,
   fun σ st e sp => rfl,
   fun σ st ss sp => rfl,
   fun σ st nm ei ist im al ci fs gc => rfl,
   fun σ st id c m ty sp => rfl,
   fun σ st fi => rfl,
   fun σ st t => rfl,
   fun σ st tr sp => rfl,
   fun σ st path p => rfl,
   fun σ st m => rfl,
   fun σ st n ms => rfl,
   fun σ st sp n args => rfl,
   fun σ st id anns inp c out blk cm sp => rfl,
   program_id⟩

/-- C2: for every node kind whose node carries a span, the default
reduction method's output node has a span equal to the original input
node's span, for arbitrary reduced children; the span is never synthesized
or recomputed from the children's spans. -/
theorem claim_C2 :
    (∀ (σ : Type) (st : σ) (i : Identifier),
      Except.map Identifier.span
        (ReconstructingReducer.reduce_identifier st i).2 = Except.ok i.span)
  ∧ (∀ (σ : Type) (st : σ) (gt : GroupTuple),
      Except.map GroupTuple.span
        (ReconstructingReducer.reduce_group_tuple st gt).2 = Except.ok gt.span)
  ∧ (∀ (σ : Type) (st : σ) (b : BinaryExpression) (l r : Expression) (op : BinaryOperation),
      Except.map BinaryExpression.span
        (ReconstructingReducer.reduce_binary st b l r op).2 = Except.ok b.span)
  ∧ (∀ (σ : Type) (st : σ) (u : UnaryExpression) (inner : Expression) (op : UnaryOperation),
      Except.map UnaryExpression.span
        (ReconstructingReducer.reduce_unary st u inner op).2 = Except.ok u.span)
  ∧ (∀ (σ : Type) (st : σ) (t : TernaryExpression) (c tb fb : Expression),
      Except.map TernaryExpression.span
        (ReconstructingReducer.reduce_ternary st t c tb fb).2 = Except.ok t.span)
  ∧ (∀ (σ : Type) (st : σ) (c : CastExpression) (inner : Expression) (ty : AstType),
      Except.map CastExpression.span
        (ReconstructingReducer.reduce_cast st c inner ty).2 = Except.ok c.span)
  ∧ (∀ (σ : Type) (st : σ) (a : ArrayAccess) (arr idx : Expression),
      Except.map ArrayAccess.span
        (ReconstructingReducer.reduce_array_access st a arr idx).2 = Except.ok a.span)
  ∧ (∀ (σ : Type) (st : σ) (a : ArrayRangeAccess) (arr : Expression) (l r : Option Expression),
      Except.map ArrayRangeAccess.span
        (ReconstructingReducer.reduce_array_range_access st a arr l r).2 = Except.ok a.span)
  ∧ (∀ (σ : Type) (st : σ) (m : MemberAccess) (inner : Expression) (n : Identifier) (ty : Option AstType),
      Except.map MemberAccess.span
        (ReconstructingReducer.reduce_member_access st m inner n ty).2 = Except.ok m.span)
  ∧ (∀ (σ : Type) (st : σ) (t : TupleAccess) (tup : Expression),
      Except.map TupleAccess.span
        (ReconstructingReducer.reduce_tuple_access st t tup).2 = Except.ok t.span)
  ∧ (∀ (σ : Type) (st : σ) (s : StaticAccess) (v : Expression) (ty : AstType) (n : Identifier),
      Except.map StaticAccess.span
        (ReconstructingReducer.reduce_static_access st s v ty n).2 = Except.ok s.span)
  ∧ (∀ (σ : Type) (st : σ) (a : ArrayInlineExpression) (els : List SpreadOrExpression),
      Except.map ArrayInlineExpression.span
        (ReconstructingReducer.reduce_array_inline st a els).2 = Except.ok a.span)
  ∧ (∀ (σ : Type) (st : σ) (a : ArrayInitExpression) (el : Expression),
      Except.map ArrayInitExpression.span
        (ReconstructingReducer.reduce_array_init st a el).2 = Except.ok a.span)
  ∧ (∀ (σ : Type) (st : σ) (t : TupleInitExpression) (els : List Expression),
      Except.map TupleInitExpression.span
        (ReconstructingReducer.reduce_tuple_init st t els).2 = Except.ok t.span)
  ∧ (∀ (σ : Type) (st : σ) (c : CircuitInitExpression) (n : Identifier) (ms : List CircuitVariableInitializer),
      Except.map CircuitInitExpression.span
        (ReconstructingReducer.reduce_circuit_init st c n ms).2 = Except.ok c.span)
  ∧ (∀ (σ : Type) (st : σ) (c : CallExpression) (f : Expression) (args : List Expression),
      Except.map CallExpression.span
        (ReconstructingReducer.reduce_call st c f args).2 = Except.ok c.span)
  ∧ (∀ (σ : Type) (st : σ) (r : ReturnStatement) (e : Expression),
      Except.map ReturnStatement.span
        (ReconstructingReducer.reduce_return st r e).2 = Except.ok r.span)
  ∧ (∀ (σ : Type) (st : σ) (vn : VariableName) (id : Identifier),
      Except.map VariableName.span
        (ReconstructingReducer.reduce_variable_name st vn id).2 = Except.ok vn.span)
  ∧ (∀ (σ : Type) (st : σ) (d : DefinitionStatement) (vns : List VariableName) (ty : AstType) (v : Expression),
      Except.map DefinitionStatement.span
        (ReconstructingReducer.reduce_definition st d vns ty v).2 = Except.ok d.span)
  ∧ (∀ (σ : Type) (st : σ) (a : Assignee) (id : Identifier) (accs : List AssigneeAccess),
      Except.map Assignee.span
        (ReconstructingReducer.reduce_assignee st a id accs).2 = Except.ok a.span)
  ∧ (∀ (σ : Type) (st : σ) (a : AssignStatement) (ae : Assignee) (v : Expression),
      Except.map AssignStatement.span
        (ReconstructingReducer.reduce_assign st a ae v).2 = Except.ok a.span)
  ∧ (∀ (σ : Type) (st : σ) (c : ConditionalStatement) (cond : Expression) (blk : Block) (nxt : Option Statement),
      Except.map ConditionalStatement.span
        (ReconstructingReducer.reduce_conditional st c cond blk nxt).2 = Except.ok c.span)
  ∧ (∀ (σ : Type) (st : σ) (i : IterationStatement) (v : Identifier) (ty : AstType) (a b : Expression) (blk : Block),
      Except.map IterationStatement.span
        (ReconstructingReducer.reduce_iteration st i v ty a b blk).2 = Except.ok i.span)
  ∧ (∀ (σ : Type) (st : σ) (c : ConsoleStatement) (f : ConsoleFunction),
      Except.map ConsoleStatement.span
        (ReconstructingReducer.reduce_console st c f).2 = Except.ok c.span)
  ∧ (∀ (σ : Type) (st : σ) (e : ExpressionStatement) (ex : Expression),
      Except.map ExpressionStatement.span
        (ReconstructingReducer.reduce_expression_statement st e ex).2 = Except.ok e.span)
  ∧ (∀ (σ : Type) (st : σ) (b : Block) (ss : List Statement),
      Except.map Block.span
        (ReconstructingReducer.reduce_block st b ss).2 = Except.ok b.span)
  ∧ (∀ (σ : Type) (st : σ) (v : FunctionInputVariable) (id : Identifier) (ty : AstType),
      Except.map FunctionInputVariable.span
        (ReconstructingReducer.reduce_function_input_variable st v id ty).2 = Except.ok v.span)
  ∧ (∀ (σ : Type) (st : σ) (i : ImportStatement) (t : ImportTree),
      Except.map ImportStatement.span
        (ReconstructingReducer.reduce_import_statement st i t).2 = Except.ok i.span)
  ∧ (∀ (σ : Type) (st : σ) (a : Annotation) (n : Identifier),
      Except.map Annotation.span
        (ReconstructingReducer.reduce_annotation st a n).2 = Except.ok a.span)
  ∧ (∀ (σ : Type) (st : σ) (f : Function) (id : Identifier) (anns : IndexMap Symbol Annotation) (inp : List FunctionInput) (c : Bool) (out : AstType) (blk : Block),
      Except.map Function.span
        (ReconstructingReducer.reduce_function st f id anns inp c out blk).2 = Except.ok f.span)
  ∧ (∀ (σ : Type) (st : σ) (s : List Char) (sp : Span),
      ReconstructingReducer.reduce_string st s sp =
        (st, Except.ok (Expression.value (ValueExpression.string s sp)))) :=
  ⟨fun σ st i => rfl,
   fun σ st gt => rfl,
   fun σ st b l r op => rfl,
   fun σ st u inner op => rfl,
   fun σ st t c tb fb => rfl,
   fun σ st c inner ty => rfl,
   fun σ st a arr idx => rfl,
   fun σ st a arr l r => rfl,
   fun σ st m inner n ty => rfl,
   fun σ st t tup => rfl,
   fun σ st s v ty n => rfl,
   fun σ st a els => rfl,
   fun σ st a el => rfl,
   fun σ st t els => rfl,
   fun σ st c n ms => rfl,
   fun σ st c f args => rfl,
   fun σ st r e => rfl,
   fun σ st vn id => rfl,
   fun σ st d vns ty v => rfl,
   fun σ st a id accs => rfl,
   fun σ st a ae v => rfl,
   fun σ st c cond blk nxt => rfl,
   fun σ st i v ty a b blk => rfl,
   fun σ st c f => rfl,
   fun σ st e ex => rfl,
   fun σ st b ss => rfl,
   fun σ st v id ty => rfl,
   fun σ st i t => rfl,
   fun σ st a n => rfl,
   fun σ st f id anns inp c out blk => rfl,
   fun σ st s sp => rfl⟩

/-- C3: every default reduction method returns `Ok` for all inputs; with
an implementation that overrides no hook the whole traversal returns `Ok`,
so a reduction failure can only be raised by an override. -/
theorem claim_C3 :
    (∀ (σ : Type) (st : σ) (t : AstType) (new : AstType) (sp : Span),
      ∃ val, (ReconstructingReducer.reduce_type st t new sp).2 = Except.ok val)
  ∧ (∀ (σ : Type) (st : σ) (e : Expression) (new : Expression),
      ∃ val, (ReconstructingReducer.reduce_expression st e new).2 = Except.ok val)
  ∧ (∀ (σ : Type) (st : σ) (id : Identifier),
      ∃ val, (ReconstructingReducer.reduce_identifier st id).2 = Except.ok val)
  ∧ (∀ (σ : Type) (st : σ) (gt : GroupTuple),
      ∃ val, (ReconstructingReducer.reduce_group_tuple st gt).2 = Except.ok val)
  ∧ (∀ (σ : Type) (st : σ) (gv : GroupValue) (new : GroupValue),
      ∃ val, (ReconstructingReducer.reduce_group_value st gv new).2 = Except.ok val)
  ∧ (∀ (σ : Type) (st : σ) (s : List Char) (sp : Span),
      ∃ val, (ReconstructingReducer.reduce_string st s sp).2 = Except.ok val)
  ∧ (∀ (σ : Type) (st : σ) (v : ValueExpression) (new : Expression),
      ∃ val, (ReconstructingReducer.reduce_value st v new).2 = Except.ok val)
  ∧ (∀ (σ : Type) (st : σ) (b : BinaryExpression) (l r : Expression) (op : BinaryOperation),
      ∃ val, (ReconstructingReducer.reduce_binary st b l r op).2 = Except.ok val)
  ∧ (∀ (σ : Type) (st : σ) (u : UnaryExpression) (inner : Expression) (op : UnaryOperation),
      ∃ val, (ReconstructingReducer.reduce_unary st u inner op).2 = Except.ok val)
  ∧ (∀ (σ : Type) (st : σ) (t : TernaryExpression) (c tb fb : Expression),
      ∃ val, (ReconstructingReducer.reduce_ternary st t c tb fb).2 = Except.ok val)
  ∧ (∀ (σ : Type) (st : σ) (c : CastExpression) (inner : Expression) (ty : AstType),
      ∃ val, (ReconstructingReducer.reduce_cast st c inner ty).2 = Except.ok val)
  ∧ (∀ (σ : Type) (st : σ) (a : ArrayAccess) (arr idx : Expression),
      ∃ val, (ReconstructingReducer.reduce_array_access st a arr idx).2 = Except.ok val)
  ∧ (∀ (σ : Type) (st : σ) (a : ArrayRangeAccess) (arr : Expression) (l r : Option Expression),
      ∃ val, (ReconstructingReducer.reduce_array_range_access st a arr l r).2 = Except.ok val)
  ∧ (∀ (σ : Type) (st : σ) (m : MemberAccess) (inner : Expression) (n : Identifier) (ty : Option AstType),
      ∃ val, (ReconstructingReducer.reduce_member_access st m inner n ty).2 = Except.ok val)
  ∧ (∀ (σ : Type) (st : σ) (t : TupleAccess) (tup : Expression),
      ∃ val, (ReconstructingReducer.reduce_tuple_access st t tup).2 = Except.ok val)
  ∧ (∀ (σ : Type) (st : σ) (s : StaticAccess) (v : Expression) (ty : AstType) (n : Identifier),
      ∃ val, (ReconstructingReducer.reduce_static_access st s v ty n).2 = Except.ok val)
  ∧ (∀ (σ : Type) (st : σ) (a : ArrayInlineExpression) (els : List SpreadOrExpression),
      ∃ val, (ReconstructingReducer.reduce_array_inline st a els).2 = Except.ok val)
  ∧ (∀ (σ : Type) (st : σ) (a : ArrayInitExpression) (el : Expression),
      ∃ val, (ReconstructingReducer.reduce_array_init st a el).2 = Except.ok val)
  ∧ (∀ (σ : Type) (st : σ) (t : TupleInitExpression) (els : List Expression),
      ∃ val, (ReconstructingReducer.reduce_tuple_init st t els).2 = Except.ok val)
  ∧ (∀ (σ : Type) (st : σ) (cv : CircuitVariableInitializer) (id : Identifier) (ex : Option Expression),
      ∃ val, (ReconstructingReducer.reduce_circuit_variable_initializer st cv id ex).2 = Except.ok val)
  ∧ (∀ (σ : Type) (st : σ) (c : CircuitInitExpression) (n : Identifier) (ms : List CircuitVariableInitializer),
      ∃ val, (ReconstructingReducer.reduce_circuit_init st c n ms).2 = Except.ok val)
  ∧ (∀ (σ : Type) (st : σ) (c : CallExpression) (f : Expression) (args : List Expression),
      ∃ val, (ReconstructingReducer.reduce_call st c f args).2 = Except.ok val)
  ∧ (∀ (σ : Type) (st : σ) (s : Statement) (new : Statement),
      ∃ val, (ReconstructingReducer.reduce_statement st s new).2 = Except.ok val)
  ∧ (∀ (σ : Type) (st : σ) (r : ReturnStatement) (e : Expression),
      ∃ val, (ReconstructingReducer.reduce_return st r e).2 = Except.ok val)
  ∧ (∀ (σ : Type) (st : σ) (vn : VariableName) (id : Identifier),
      ∃ val, (ReconstructingReducer.reduce_variable_name st vn id).2 = Except.ok val)
  ∧ (∀ (σ : Type) (st : σ) (d : DefinitionStatement) (vns : List VariableName) (ty : AstType) (v : Expression),
      ∃ val, (ReconstructingReducer.reduce_definition st d vns ty v).2 = Except.ok val)
  ∧ (∀ (σ : Type) (st : σ) (a : AssigneeAccess) (new : AssigneeAccess),
      ∃ val, (ReconstructingReducer.reduce_assignee_access st a new).2 = Except.ok val)
  ∧ (∀ (σ : Type) (st : σ) (a : Assignee) (id : Identifier) (accs : List AssigneeAccess),
      ∃ val, (ReconstructingReducer.reduce_assignee st a id accs).2 = Except.ok val)
  ∧ (∀ (σ : Type) (st : σ) (a : AssignStatement) (ae : Assignee) (v : Expression),
      ∃ val, (ReconstructingReducer.reduce_assign st a ae v).2 = Except.ok val)
  ∧ (∀ (σ : Type) (st : σ) (c : ConditionalStatement) (cond : Expression) (blk : Block) (nxt : Option Statement),
      ∃ val, (ReconstructingReducer.reduce_conditional st c cond blk nxt).2 = Except.ok val)
  ∧ (∀ (σ : Type) (st : σ) (i : IterationStatement) (v : Identifier) (ty : AstType) (a b : Expression) (blk : Block),
      ∃ val, (ReconstructingReducer.reduce_iteration st i v ty a b blk).2 = Except.ok val)
  ∧ (∀ (σ : Type) (st : σ) (c : ConsoleStatement) (f : ConsoleFunction),
      ∃ val, (ReconstructingReducer.reduce_console st c f).2 = Except.ok val)
  ∧ (∀ (σ : Type) (st : σ) (e : ExpressionStatement) (ex : Expression),
      ∃ val, (ReconstructingReducer.reduce_expression_statement st e ex).2 = Except.ok val)
  ∧ (∀ (σ : Type) (st : σ) (b : Block) (ss : List Statement),
      ∃ val, (ReconstructingReducer.reduce_block st b ss).2 = Except.ok val)
  ∧ (∀ (σ : Type) (st : σ) (p : Program) (ei : List FunctionInput) (ist : List ImportStatement) (im : IndexMap (List Symbol) Program) (al : IndexMap Identifier Alias) (ci : IndexMap Identifier Circuit) (fs : IndexMap Identifier Function) (gc : IndexMap (List Identifier) DefinitionStatement),
      ∃ val, (ReconstructingReducer.reduce_program st p ei ist im al ci fs gc).2 = Except.ok val)
  ∧ (∀ (σ : Type) (st : σ) (v : FunctionInputVariable) (id : Identifier) (ty : AstType),
      ∃ val, (ReconstructingReducer.reduce_function_input_variable st v id ty).2 = Except.ok val)
  ∧ (∀ (σ : Type) (st : σ) (fi : FunctionInput) (new : FunctionInput),
      ∃ val, (ReconstructingReducer.reduce_function_input st fi new).2 = Except.ok val)
  ∧ (∀ (σ : Type) (st : σ) (t : ImportTree) (new : ImportTree),
      ∃ val, (ReconstructingReducer.reduce_import_tree st t new).2 = Except.ok val)
  ∧ (∀ (σ : Type) (st : σ) (i : ImportStatement) (t : ImportTree),
      ∃ val, (ReconstructingReducer.reduce_import_statement st i t).2 = Except.ok val)
  ∧ (∀ (σ : Type) (st : σ) (path : List Symbol) (p : Program),
      ∃ val, (ReconstructingReducer.reduce_import st path p).2 = Except.ok val)
  ∧ (∀ (σ : Type) (st : σ) (m : CircuitMember) (new : CircuitMember),
      ∃ val, (ReconstructingReducer.reduce_circuit_member st m new).2 = Except.ok val)
  ∧ (∀ (σ : Type) (st : σ) (c : Circuit) (n : Identifier) (ms : List CircuitMember),
      ∃ val, (ReconstructingReducer.reduce_circuit st c n ms).2 = Except.ok val)
  ∧ (∀ (σ : Type) (st : σ) (a : Annotation) (n : Identifier),
      ∃ val, (ReconstructingReducer.reduce_annotation st a n).2 = Except.ok val)
  ∧ (∀ (σ : Type) (st : σ) (f : Function) (id : Identifier) (anns : IndexMap Symbol Annotation) (inp : List FunctionInput) (c : Bool) (out : AstType) (blk : Block),
      ∃ val, (ReconstructingReducer.reduce_function st f id anns inp c out blk).2 = Except.ok val)
  ∧ (∀ (σ : Type) (inc : σ → Bool) (swap : σ → σ) (st : σ) (p : Program),
      ∃ q, (Director.reduceProgram (mkDefault σ inc swap) (sizeOf p + 1) st p).2 =
        Except.ok q) :=
  ⟨fun σ st t new sp => ⟨_, rfl⟩,
   fun σ st e new => ⟨_, rfl⟩,
   fun σ st id => ⟨_, rfl⟩,
   fun σ st gt => ⟨_, rfl⟩,
   fun σ st gv new => ⟨_, rfl⟩,
   fun σ st s sp => ⟨_, rfl⟩,
   fun σ st v new => ⟨_, rfl⟩,
   fun σ st b l r op => ⟨_, rfl⟩,
   fun σ st u inner op => ⟨_, rfl⟩,
   fun σ st t c tb fb => ⟨_, rfl⟩,
   fun σ st c inner ty => ⟨_, rfl⟩,
   fun σ st a arr idx => ⟨_, rfl⟩,
   fun σ st a arr l r => ⟨_, rfl⟩,
   fun σ st m inner n ty => ⟨_, rfl⟩,
   fun σ st t tup => ⟨_, rfl⟩,
   fun σ st s v ty n => ⟨_, rfl⟩,
   fun σ st a els => ⟨_, rfl⟩,
   fun σ st a el => ⟨_, rfl⟩,
   fun σ st t els => ⟨_, rfl⟩,
   fun σ st cv id ex => ⟨_, rfl⟩,
   fun σ st c n ms => ⟨_, rfl⟩,
   fun σ st c f args => ⟨_, rfl⟩,
   fun σ st s new => ⟨_, rfl⟩,
   fun σ st r e => ⟨_, rfl⟩,
   fun σ st vn id => ⟨_, rfl⟩,
   fun σ st d vns ty v => ⟨_, rfl⟩,
   fun σ st a new => ⟨_, rfl⟩,
   fun σ st a id accs => ⟨_, rfl⟩,
   fun σ st a ae v => ⟨_, rfl⟩,
   fun σ st c cond blk nxt => ⟨_, rfl⟩,
   fun σ st i v ty a b blk => ⟨_, rfl⟩,
   fun σ st c f => ⟨_, rfl⟩,
   fun σ st e ex => ⟨_, rfl⟩,
   fun σ st b ss => ⟨_, rfl⟩,
   fun σ st p ei ist im al ci fs gc => ⟨_, rfl⟩,
   fun σ st v id ty => ⟨_, rfl⟩,
   fun σ st fi new => ⟨_, rfl⟩,
   fun σ st t new => ⟨_, rfl⟩,
   fun σ st i t => ⟨_, rfl⟩,
   fun σ st path p => ⟨_, rfl⟩,
   fun σ st m new => ⟨_, rfl⟩,
   fun σ st c n ms => ⟨_, rfl⟩,
   fun σ st a n => ⟨_, rfl⟩,
   fun σ st f id anns inp c out blk => ⟨_, rfl⟩,
   fun σ inc swap st p => ⟨p, by rw [program_id]⟩⟩

/-- C5: the nine summary hooks default to pure pass-through: for every
input, the result is `Ok` of exactly the already-built `new` argument,
ignoring the original node reference. -/
theorem claim_C5 :
    (∀ (σ : Type) (st : σ) (t : AstType) (new : AstType) (sp : Span),
      ReconstructingReducer.reduce_type st t new sp = (st, Except.ok new))
  ∧ (∀ (σ : Type) (st : σ) (e : Expression) (new : Expression),
      ReconstructingReducer.reduce_expression st e new = (st, Except.ok new))
  ∧ (∀ (σ : Type) (st : σ) (v : ValueExpression) (new : Expression),
      ReconstructingReducer.reduce_value st v new = (st, Except.ok new))
  ∧ (∀ (σ : Type) (st : σ) (s : Statement) (new : Statement),
      ReconstructingReducer.reduce_statement st s new = (st, Except.ok new))
  ∧ (∀ (σ : Type) (st : σ) (a : AssigneeAccess) (new : AssigneeAccess),
      ReconstructingReducer.reduce_assignee_access st a new = (st, Except.ok new))
  ∧ (∀ (σ : Type) (st : σ) (fi : FunctionInput) (new : FunctionInput),
      ReconstructingReducer.reduce_function_input st fi new = (st, Except.ok new))
  ∧ (∀ (σ : Type) (st : σ) (t : ImportTree) (new : ImportTree),
      ReconstructingReducer.reduce_import_tree st t new = (st, Except.ok new))
  ∧ (∀ (σ : Type) (st : σ) (gv : GroupValue) (new : GroupValue),
      ReconstructingReducer.reduce_group_value st gv new = (st, Except.ok new))
  ∧ (∀ (σ : Type) (st : σ) (m : CircuitMember) (new : CircuitMember),
      ReconstructingReducer.reduce_circuit_member st m new = (st, Except.ok new)) :=
  ⟨fun σ st t new sp => rfl,
   fun σ st e new => rfl,
   fun σ st v new => rfl,
   fun σ st s new => rfl,
   fun σ st a new => rfl,
   fun σ st fi new => rfl,
   fun σ st t new => rfl,
   fun σ st gv new => rfl,
   fun σ st m new => rfl⟩

/-- C10: no default reduction method touches the traversal state: the
state (hence the in-circuit mode bit) after the call equals the state
before, `swap_in_circuit` is never invoked, and two calls with equal
arguments but different states (in particular, different mode bits)
return equal `Ok` results. -/
theorem claim_C10 :
    (∀ (st st' : ReducerState) (t : AstType) (new : AstType) (sp : Span),
      ReconstructingReducer.reduce_type st t new sp =
        (st, (ReconstructingReducer.reduce_type st' t new sp).2))
  ∧ (∀ (st st' : ReducerState) (e : Expression) (new : Expression),
      ReconstructingReducer.reduce_expression st e new =
        (st, (ReconstructingReducer.reduce_expression st' e new).2))
  ∧ (∀ (st st' : ReducerState) (id : Identifier),
      ReconstructingReducer.reduce_identifier st id =
        (st, (ReconstructingReducer.reduce_identifier st' id).2))
  ∧ (∀ (st st' : ReducerState) (gt : GroupTuple),
      ReconstructingReducer.reduce_group_tuple st gt =
        (st, (ReconstructingReducer.reduce_group_tuple st' gt).2))
  ∧ (∀ (st st' : ReducerState) (gv : GroupValue) (new : GroupValue),
      ReconstructingReducer.reduce_group_value st gv new =
        (st, (ReconstructingReducer.reduce_group_value st' gv new).2))
  ∧ (∀ (st st' : ReducerState) (s : List Char) (sp : Span),
      ReconstructingReducer.reduce_string st s sp =
        (st, (ReconstructingReducer.reduce_string st' s sp).2))
  ∧ (∀ (st st' : ReducerState) (v : ValueExpression) (new : Expression),
      ReconstructingReducer.reduce_value st v new =
        (st, (ReconstructingReducer.reduce_value st' v new).2))
  ∧ (∀ (st st' : ReducerState) (b : BinaryExpression) (l r : Expression) (op : BinaryOperation),
      ReconstructingReducer.reduce_binary st b l r op =
        (st, (ReconstructingReducer.reduce_binary st' b l r op).2))
  ∧ (∀ (st st' : ReducerState) (u : UnaryExpression) (inner : Expression) (op : UnaryOperation),
      ReconstructingReducer.reduce_unary st u inner op =
        (st, (ReconstructingReducer.reduce_unary st' u inner op).2))
  ∧ (∀ (st st' : ReducerState) (t : TernaryExpression) (c tb fb : Expression),
      ReconstructingReducer.reduce_ternary st t c tb fb =
        (st, (ReconstructingReducer.reduce_ternary st' t c tb fb).2))
  ∧ (∀ (st st' : ReducerState) (c : CastExpression) (inner : Expression) (ty : AstType),
      ReconstructingReducer.reduce_cast st c inner ty =
        (st, (ReconstructingReducer.reduce_cast st' c inner ty).2))
  ∧ (∀ (st st' : ReducerState) (a : ArrayAccess) (arr idx : Expression),
      ReconstructingReducer.reduce_array_access st a arr idx =
        (st, (ReconstructingReducer.reduce_array_access st' a arr idx).2))
  ∧ (∀ (st st' : ReducerState) (a : ArrayRangeAccess) (arr : Expression) (l r : Option Expression),
      ReconstructingReducer.reduce_array_range_access st a arr l r =
        (st, (ReconstructingReducer.reduce_array_range_access st' a arr l r).2))
  ∧ (∀ (st st' : ReducerState) (m : MemberAccess) (inner : Expression) (n : Identifier) (ty : Option AstType),
      ReconstructingReducer.reduce_member_access st m inner n ty =
        (st, (ReconstructingReducer.reduce_member_access st' m inner n ty).2))
  ∧ (∀ (st st' : ReducerState) (t : TupleAccess) (tup : Expression),
      ReconstructingReducer.reduce_tuple_access st t tup =
        (st, (ReconstructingReducer.reduce_tuple_access st' t tup).2))
  ∧ (∀ (st st' : ReducerState) (s : StaticAccess) (v : Expression) (ty : AstType) (n : Identifier),
      ReconstructingReducer.reduce_static_access st s v ty n =
        (st, (ReconstructingReducer.reduce_static_access st' s v ty n).2))
  ∧ (∀ (st st' : ReducerState) (a : ArrayInlineExpression) (els : List SpreadOrExpression),
      ReconstructingReducer.reduce_array_inline st a els =
        (st, (ReconstructingReducer.reduce_array_inline st' a els).2))
  ∧ (∀ (st st' : ReducerState) (a : ArrayInitExpression) (el : Expression),
      ReconstructingReducer.reduce_array_init st a el =
        (st, (ReconstructingReducer.reduce_array_init st' a el).2))
  ∧ (∀ (st st' : ReducerState) (t : TupleInitExpression) (els : List Expression),
      ReconstructingReducer.reduce_tuple_init st t els =
        (st, (ReconstructingReducer.reduce_tuple_init st' t els).2))
  ∧ (∀ (st st' : ReducerState) (cv : CircuitVariableInitializer) (id : Identifier) (ex : Option Expression),
      ReconstructingReducer.reduce_circuit_variable_initializer st cv id ex =
        (st, (ReconstructingReducer.reduce_circuit_variable_initializer st' cv id ex).2))
  ∧ (∀ (st st' : ReducerState) (c : CircuitInitExpression) (n : Identifier) (ms : List CircuitVariableInitializer),
      ReconstructingReducer.reduce_circuit_init st c n ms =
        (st, (ReconstructingReducer.reduce_circuit_init st' c n ms).2))
  ∧ (∀ (st st' : ReducerState) (c : CallExpression) (f : Expression) (args : List Expression),
      ReconstructingReducer.reduce_call st c f args =
        (st, (ReconstructingReducer.reduce_call st' c f args).2))
  ∧ (∀ (st st' : ReducerState) (s : Statement) (new : Statement),
      ReconstructingReducer.reduce_statement st s new =
        (st, (ReconstructingReducer.reduce_statement st' s new).2))
  ∧ (∀ (st st' : ReducerState) (r : ReturnStatement) (e : Expression),
      ReconstructingReducer.reduce_return st r e =
        (st, (ReconstructingReducer.reduce_return st' r e).2))
  ∧ (∀ (st st' : ReducerState) (vn : VariableName) (id : Identifier),
      ReconstructingReducer.reduce_variable_name st vn id =
        (st, (ReconstructingReducer.reduce_variable_name st' vn id).2))
  ∧ (∀ (st st' : ReducerState) (d : DefinitionStatement) (vns : List VariableName) (ty : AstType) (v : Expression),
      ReconstructingReducer.reduce_definition st d vns ty v =
        (st, (ReconstructingReducer.reduce_definition st' d vns ty v).2))
  ∧ (∀ (st st' : ReducerState) (a : AssigneeAccess) (new : AssigneeAccess),
      ReconstructingReducer.reduce_assignee_access st a new =
        (st, (ReconstructingReducer.reduce_assignee_access st' a new).2))
  ∧ (∀ (st st' : ReducerState) (a : Assignee) (id : Identifier) (accs : List AssigneeAccess),
      ReconstructingReducer.reduce_assignee st a id accs =
        (st, (ReconstructingReducer.reduce_assignee st' a id accs).2))
  ∧ (∀ (st st' : ReducerState) (a : AssignStatement) (ae : Assignee) (v : Expression),
      ReconstructingReducer.reduce_assign st a ae v =
        (st, (ReconstructingReducer.reduce_assign st' a ae v).2))
  ∧ (∀ (st st' : ReducerState) (c : ConditionalStatement) (cond : Expression) (blk : Block) (nxt : Option Statement),
      ReconstructingReducer.reduce_conditional st c cond blk nxt =
        (st, (ReconstructingReducer.reduce_conditional st' c cond blk nxt).2))
  ∧ (∀ (st st' : ReducerState) (i : IterationStatement) (v : Identifier) (ty : AstType) (a b : Expression) (blk : Block),
      ReconstructingReducer.reduce_iteration st i v ty a b blk =
        (st, (ReconstructingReducer.reduce_iteration st' i v ty a b blk).2))
  ∧ (∀ (st st' : ReducerState) (c : ConsoleStatement) (f : ConsoleFunction),
      ReconstructingReducer.reduce_console st c f =
        (st, (ReconstructingReducer.reduce_console st' c f).2))
  ∧ (∀ (st st' : ReducerState) (e : ExpressionStatement) (ex : Expression),
      ReconstructingReducer.reduce_expression_statement st e ex =
        (st, (ReconstructingReducer.reduce_expression_statement st' e ex).2))
  ∧ (∀ (st st' : ReducerState) (b : Block) (ss : List Statement),
      ReconstructingReducer.reduce_block st b ss =
        (st, (ReconstructingReducer.reduce_block st' b ss).2))
  ∧ (∀ (st st' : ReducerState) (p : Program) (ei : List FunctionInput) (ist : List ImportStatement) (im : IndexMap (List Symbol) Program) (al : IndexMap Identifier Alias) (ci : IndexMap Identifier Circuit) (fs : IndexMap Identifier Function) (gc : IndexMap (List Identifier) DefinitionStatement),
      ReconstructingReducer.reduce_program st p ei ist im al ci fs gc =
        (st, (ReconstructingReducer.reduce_program st' p ei ist im al ci fs gc).2))
  ∧ (∀ (st st' : ReducerState) (v : FunctionInputVariable) (id : Identifier) (ty : AstType),
      ReconstructingReducer.reduce_function_input_variable st v id ty =
        (st, (ReconstructingReducer.reduce_function_input_variable st' v id ty).2))
  ∧ (∀ (st st' : ReducerState) (fi : FunctionInput) (new : FunctionInput),
      ReconstructingReducer.reduce_function_input st fi new =
        (st, (ReconstructingReducer.reduce_function_input st' fi new).2))
  ∧ (∀ (st st' : ReducerState) (t : ImportTree) (new : ImportTree),
      ReconstructingReducer.reduce_import_tree st t new =
        (st, (ReconstructingReducer.reduce_import_tree st' t new).2))
  ∧ (∀ (st st' : ReducerState) (i : ImportStatement) (t : ImportTree),
      ReconstructingReducer.reduce_import_statement st i t =
        (st, (ReconstructingReducer.reduce_import_statement st' i t).2))
  ∧ (∀ (st st' : ReducerState) (path : List Symbol) (p : Program),
      ReconstructingReducer.reduce_import st path p =
        (st, (ReconstructingReducer.reduce_import st' path p).2))
  ∧ (∀ (st st' : ReducerState) (m : CircuitMember) (new : CircuitMember),
      ReconstructingReducer.reduce_circuit_member st m new =
        (st, (ReconstructingReducer.reduce_circuit_member st' m new).2))
  ∧ (∀ (st st' : ReducerState) (c : Circuit) (n : Identifier) (ms : List CircuitMember),
      ReconstructingReducer.reduce_circuit st c n ms =
        (st, (ReconstructingReducer.reduce_circuit st' c n ms).2))
  ∧ (∀ (st st' : ReducerState) (a : Annotation) (n : Identifier),
      ReconstructingReducer.reduce_annotation st a n =
        (st, (ReconstructingReducer.reduce_annotation st' a n).2))
  ∧ (∀ (st st' : ReducerState) (f : Function) (id : Identifier) (anns : IndexMap Symbol Annotation) (inp : List FunctionInput) (c : Bool) (out : AstType) (blk : Block),
      ReconstructingReducer.reduce_function st f id anns inp c out blk =
        (st, (ReconstructingReducer.reduce_function st' f id anns inp c out blk).2)) :=
  ⟨fun st st' t new sp => rfl,
   fun st st' e new => rfl,
   fun st st' id => rfl,
   fun st st' gt => rfl,
   fun st st' gv new => rfl,
   fun st st' s sp => rfl,
   fun st st' v new => rfl,
   fun st st' b l r op => rfl,
   fun st st' u inner op => rfl,
   fun st st' t c tb fb => rfl,
   fun st st' c inner ty => rfl,
   fun st st' a arr idx => rfl,
   fun st st' a arr l r => rfl,
   fun st st' m inner n ty => rfl,
   fun st st' t tup => rfl,
   fun st st' s v ty n => rfl,
   fun st st' a els => rfl,
   fun st st' a el => rfl,
   fun st st' t els => rfl,
   fun st st' cv id ex => rfl,
   fun st st' c n ms => rfl,
   fun st st' c f args => rfl,
   fun st st' s new => rfl,
   fun st st' r e => rfl,
   fun st st' vn id => rfl,
   fun st st' d vns ty v => rfl,
   fun st st' a new => rfl,
   fun st st' a id accs => rfl,
   fun st st' a ae v => rfl,
   fun st st' c cond blk nxt => rfl,
   fun st st' i v ty a b blk => rfl,
   fun st st' c f => rfl,
   fun st st' e ex => rfl,
   fun st st' b ss => rfl,
   fun st st' p ei ist im al ci fs gc => rfl,
   fun st st' v id ty => rfl,
   fun st st' fi new => rfl,
   fun st st' t new => rfl,
   fun st st' i t => rfl,
   fun st st' path p => rfl,
   fun st st' m new => rfl,
   fun st st' c n ms => rfl,
   fun st st' a n => rfl,
   fun st st' f id anns inp c out blk => rfl⟩

/-- C4: the driver reduces a node's children left-to-right and
short-circuits on the first failure.  Modelled from the spec (the driver's
code is not part of the given source): for every protocol implementation,
if reducing the left operand of a `Binary` node fails, the whole reduction
returns exactly that failure with exactly the state left by the left
operand's reduction — the right operand is never submitted and
`reduce_binary` is never invoked, since neither can have contributed to
state or result; and if the left operand succeeds and the right operand
then fails, that failure propagates the same way. -/
theorem claim_C4 (σ : Type) (R : Reducer σ) (fuel : Nat) (st st' : σ) (err : LeoError)
    (l r : Expression) (op : BinaryOperation) (sp : Span) :
    (Director.reduceExpression R fuel st l = (st', Except.error err) →
      Director.reduceExpression R (fuel+1) st
        (Expression.binary (BinaryExpression.mk l r op sp)) = (st', Except.error err))
  ∧ (∀ (stm : σ) (l' : Expression),
      Director.reduceExpression R fuel st l = (stm, Except.ok l') →
      Director.reduceExpression R fuel stm r = (st', Except.error err) →
      Director.reduceExpression R (fuel+1) st
        (Expression.binary (BinaryExpression.mk l r op sp)) = (st', Except.error err)) := by
  constructor
  · intro hl
    simp [Director.reduceExpression, hl]
  · intro stm l' hl hr
    simp [Director.reduceExpression, hl, hr]

/-- Witness for C4: concrete runs.  With the implementation whose
`reduce_identifier` always fails, reducing `x + y` fails with the left
operand's span; with the implementation that fails only on the identifier
at offset 4 (the right operand), the left operand is reduced first and the
failure carries the right operand's span. -/
theorem claim_C4_witness :
    (Director.reduceExpression failingReducer 2 ()
      (Expression.binary (BinaryExpression.mk
        (Expression.identifier (Identifier.mk "x" (Span.mk 0 1)))
        (Expression.identifier (Identifier.mk "y" (Span.mk 4 5)))
        BinaryOperation.add (Span.mk 0 5))) = ((), Except.error (LeoError.mk (Span.mk 0 1))))
  ∧ (Director.reduceExpression rightFailingReducer 2 ()
      (Expression.binary (BinaryExpression.mk
        (Expression.identifier (Identifier.mk "x" (Span.mk 0 1)))
        (Expression.identifier (Identifier.mk "y" (Span.mk 4 5)))
        BinaryOperation.add (Span.mk 0 5))) = ((), Except.error (LeoError.mk (Span.mk 4 5)))) := by
  constructor
  · exact (claim_C4 Unit failingReducer 1 () () (LeoError.mk (Span.mk 0 1))
      (Expression.identifier (Identifier.mk "x" (Span.mk 0 1)))
      (Expression.identifier (Identifier.mk "y" (Span.mk 4 5)))
      BinaryOperation.add (Span.mk 0 5)).1 (by rfl)
  · exact (claim_C4 Unit rightFailingReducer 1 () () (LeoError.mk (Span.mk 4 5))
      (Expression.identifier (Identifier.mk "x" (Span.mk 0 1)))
      (Expression.identifier (Identifier.mk "y" (Span.mk 4 5)))
      BinaryOperation.add (Span.mk 0 5)).2 ()
      (Expression.identifier (Identifier.mk "x" (Span.mk 0 1))) (by rfl) (by rfl)

/-- C6: the defaults of `reduce_array_range_access` and `reduce_conditional`
preserve presence and absence of their optional children exactly: the
output's optional bounds and else-branch are the supplied optional
arguments verbatim, never coerced into a default value. -/
theorem claim_C6 :
    (∀ (σ : Type) (st : σ) (a : ArrayRangeAccess) (arr : Expression)
        (l r : Option Expression),
      ReconstructingReducer.reduce_array_range_access st a arr l r =
        (st, Except.ok (ArrayRangeAccess.mk arr l r a.span)))
  ∧ (∀ (σ : Type) (st : σ) (a : ArrayRangeAccess) (arr : Expression)
        (l r : Option Expression),
      Except.map ArrayRangeAccess.left
        (ReconstructingReducer.reduce_array_range_access st a arr l r).2 = Except.ok l)
  ∧ (∀ (σ : Type) (st : σ) (a : ArrayRangeAccess) (arr : Expression)
        (l r : Option Expression),
      Except.map ArrayRangeAccess.right
        (ReconstructingReducer.reduce_array_range_access st a arr l r).2 = Except.ok r)
  ∧ (∀ (σ : Type) (st : σ) (c : ConditionalStatement) (cond : Expression)
        (blk : Block) (nxt : Option Statement),
      ReconstructingReducer.reduce_conditional st c cond blk nxt =
        (st, Except.ok (ConditionalStatement.mk cond blk nxt c.span)))
  ∧ (∀ (σ : Type) (st : σ) (c : ConditionalStatement) (cond : Expression)
        (blk : Block) (nxt : Option Statement),
      Except.map ConditionalStatement.next
        (ReconstructingReducer.reduce_conditional st c cond blk nxt).2 = Except.ok nxt) :=
  ⟨fun σ st a arr l r => rfl,
   fun σ st a arr l r => rfl,
   fun σ st a arr l r => rfl,
   fun σ st c cond blk nxt => rfl,
   fun σ st c cond blk nxt => rfl⟩

/-- C7: the default `reduce_program` copies the name from the original and
stores exactly the supplied reduced arguments in every other field, so the
key lists (sets and iteration order) of the four mappings are exactly those
of the supplied arguments; the default `reduce_function` copies
`core_mapping` and span from the original and reassembles every reduced
field verbatim. -/
theorem claim_C7 :
    (∀ (σ : Type) (st : σ) (p : Program) (ei : List FunctionInput)
        (ist : List ImportStatement) (im : IndexMap (List Symbol) Program)
        (al : IndexMap Identifier Alias) (ci : IndexMap Identifier Circuit)
        (fs : IndexMap Identifier Function)
        (gc : IndexMap (List Identifier) DefinitionStatement),
      ReconstructingReducer.reduce_program st p ei ist im al ci fs gc =
        (st, Except.ok (Program.mk p.name ei ist im al ci fs gc)))
  ∧ (∀ (σ : Type) (st : σ) (p : Program) (ei : List FunctionInput)
        (ist : List ImportStatement) (im : IndexMap (List Symbol) Program)
        (al : IndexMap Identifier Alias) (ci : IndexMap Identifier Circuit)
        (fs : IndexMap Identifier Function)
        (gc : IndexMap (List Identifier) DefinitionStatement),
      Except.map Program.imports
        (ReconstructingReducer.reduce_program st p ei ist im al ci fs gc).2 =
        Except.ok im
      ∧ Except.map Program.aliases
          (ReconstructingReducer.reduce_program st p ei ist im al ci fs gc).2 =
          Except.ok al
      ∧ Except.map Program.circuits
          (ReconstructingReducer.reduce_program st p ei ist im al ci fs gc).2 =
          Except.ok ci
      ∧ Except.map Program.functions
          (ReconstructingReducer.reduce_program st p ei ist im al ci fs gc).2 =
          Except.ok fs
      ∧ Except.map Program.global_consts
          (ReconstructingReducer.reduce_program st p ei ist im al ci fs gc).2 =
          Except.ok gc)
  ∧ (∀ (σ : Type) (st : σ) (p : Program) (ei : List FunctionInput)
        (ist : List ImportStatement) (im : IndexMap (List Symbol) Program)
        (al : IndexMap Identifier Alias) (ci : IndexMap Identifier Circuit)
        (fs : IndexMap Identifier Function)
        (gc : IndexMap (List Identifier) DefinitionStatement),
      Except.map (fun q => List.map Prod.fst (Program.imports q))
        (ReconstructingReducer.reduce_program st p ei ist im al ci fs gc).2 =
        Except.ok (List.map Prod.fst im)
      ∧ Except.map (fun q => List.map Prod.fst (Program.circuits q))
          (ReconstructingReducer.reduce_program st p ei ist im al ci fs gc).2 =
          Except.ok (List.map Prod.fst ci)
      ∧ Except.map (fun q => List.map Prod.fst (Program.functions q))
          (ReconstructingReducer.reduce_program st p ei ist im al ci fs gc).2 =
          Except.ok (List.map Prod.fst fs)
      ∧ Except.map (fun q => List.map Prod.fst (Program.global_consts q))
          (ReconstructingReducer.reduce_program st p ei ist im al ci fs gc).2 =
          Except.ok (List.map Prod.fst gc))
  ∧ (∀ (σ : Type) (st : σ) (f : Function) (id : Identifier)
        (anns : IndexMap Symbol Annotation) (inp : List FunctionInput) (c : Bool)
        (out : AstType) (blk : Block),
      ReconstructingReducer.reduce_function st f id anns inp c out blk =
        (st, Except.ok (Function.mk id anns inp c out blk f.core_mapping f.span))) :=
  ⟨fun σ st p ei ist im al ci fs gc => rfl,
   fun σ st p ei ist im al ci fs gc => ⟨rfl, rfl, rfl, rfl, rfl⟩,
   fun σ st p ei ist im al ci fs gc => ⟨rfl, rfl, rfl, rfl⟩,
   fun σ st f id anns inp c out blk => rfl⟩

/-- C8: the default `reduce_string`, for every character sequence and span,
returns `Ok` of an expression of the `Value` kind — a string value
expression carrying the characters and the span — not a standalone string
node kind. -/
theorem claim_C8 (σ : Type) (st : σ) (s : List Char) (sp : Span) :
    ReconstructingReducer.reduce_string st s sp =
      (st, Except.ok (Expression.value (ValueExpression.string s sp))) := rfl

/-- C9: the default `reduce_static_access` stores the supplied type in a
fresh shared mutable cell of the produced node (initialized with exactly
that type), and the cell can be reassigned after construction — writing it
later changes only the cell, leaving every other field as built. -/
theorem claim_C9 :
    (∀ (σ : Type) (st : σ) (sa : StaticAccess) (v : Expression) (ty : AstType)
        (n : Identifier),
      ReconstructingReducer.reduce_static_access st sa v ty n =
        (st, Except.ok (StaticAccess.mk v n (RefCell.new ty) sa.span)))
  ∧ (∀ (σ : Type) (st : σ) (sa : StaticAccess) (v : Expression) (ty : AstType)
        (n : Identifier),
      Except.map (fun node => RefCell.value (StaticAccess.type_ node))
        (ReconstructingReducer.reduce_static_access st sa v ty n).2 = Except.ok ty)
  ∧ (∀ (σ : Type) (st : σ) (sa : StaticAccess) (v : Expression) (ty ty' : AstType)
        (n : Identifier),
      Except.map (fun node => StaticAccess.writeType node ty')
        (ReconstructingReducer.reduce_static_access st sa v ty n).2 =
        Except.ok (StaticAccess.mk v n (RefCell.mk ty') sa.span)) :=
  ⟨fun σ st sa v ty n => rfl,
   fun σ st sa v ty n => rfl,
   fun σ st sa v ty ty' n => rfl⟩

end Leo
